import Mathlib

/-!
Verification development for the refresharr reconciliation engine
(internal/arr/cleanup.go and pkg/models/models.go).

The Go code is shallow-embedded: Go int becomes Int, pointers become
Option, fallible calls become Except, the media backend, filesystem
probe and clock become an explicit environment record, and the
concurrent run is modelled as a sequential fold in dispatch order
(statistics aggregation in the source is commutative addition, so any
completion order yields the same aggregate; cancellation is modelled
as the item index from which the context is observed as done).
Mutating backend and filesystem operations are recorded in an explicit
call trace.
-/

namespace Refresharr

/-- Embeds the helper min from cleanup.go (lines 15-20). -/
def min (a b : Int) : Int :=
  if a < b then a else b

/-- Byte-wise lexicographic string comparison on char lists, embedding
the Go string less-than used by sort.Slice and by the ProcessedAt
comparison (Go compares strings byte-wise; the strings compared here
are ASCII timestamps, where code-point order equals byte order). -/
def strLtList : List Char → List Char → Bool
  | [], [] => false
  | [], _ :: _ => true
  | _ :: _, [] => false
  | a :: as, b :: bs =>
    if a.toNat < b.toNat then true
    else if b.toNat < a.toNat then false
    else strLtList as bs

/-- Embeds Go string less-than. -/
def strLt (a b : String) : Bool :=
  strLtList a.data b.data

/-- Embeds strings.HasPrefix from the Go standard library. -/
def strStartsWith (s pre : String) : Bool :=
  List.isPrefixOf pre.data s.data

/-- Containment of a pattern char list inside another char list,
embedding strings.Contains. -/
def containsList (pat : List Char) : List Char → Bool
  | [] => List.isPrefixOf pat []
  | c :: rest => List.isPrefixOf pat (c :: rest) || containsList pat rest

/-- Embeds strings.Contains(strings.ToLower(msg), "not found") from
cleanup.go lines 625 and 756 (ASCII lowering, which is all the error
texts involved use). -/
def containsNotFound (msg : String) : Bool :=
  containsList "not found".data (msg.data.map Char.toLower)

/-- Embeds models.Series (models.go). -/
structure Series where
  id : Int
  title : String
  path : String
  seasonCount : Int
  tvdbId : Int
  monitored : Bool
  qualityProfileId : Int
  rootFolderPath : String
deriving DecidableEq

/-- Embeds models.Movie (models.go). -/
structure Movie where
  id : Int
  title : String
  path : String
  year : Int
  hasFile : Bool
  movieFileId : Option Int
  tmdbId : Int
  monitored : Bool
  qualityProfileId : Int
  rootFolderPath : String
deriving DecidableEq

/-- Embeds models.Episode (models.go). -/
structure Episode where
  id : Int
  seriesId : Int
  seasonNumber : Int
  episodeNumber : Int
  title : String
  hasFile : Bool
  episodeFileId : Option Int
deriving DecidableEq

/-- Embeds models.EpisodeFile (models.go). -/
structure EpisodeFile where
  id : Int
  path : String
deriving DecidableEq

/-- Embeds models.MovieFile (models.go). -/
structure MovieFile where
  id : Int
  path : String
  movieId : Int
deriving DecidableEq

/-- Embeds models.RootFolder (models.go). -/
structure RootFolder where
  id : Int
  path : String
  name : String
deriving DecidableEq

/-- Embeds models.MovieLookup (models.go). -/
structure MovieLookup where
  tmdbId : Int
  title : String
  year : Int
deriving DecidableEq

/-- Embeds models.SeriesLookup (models.go). -/
structure SeriesLookup where
  tvdbId : Int
  title : String
  year : Int
deriving DecidableEq

/-- Embeds models.CleanupStats (models.go). -/
structure CleanupStats where
  totalItemsChecked : Int
  missingFiles : Int
  deletedRecords : Int
  errors : Int
deriving DecidableEq

/-- Embeds models.MissingFileEntry (models.go). -/
structure MissingFileEntry where
  mediaType : String
  mediaName : String
  episodeName : String := ""
  season : Option Int := none
  episode : Option Int := none
  filePath : String
  fileID : Int
  processedAt : String
  addedToCollection : Bool := false
  tmdbId : Int := 0
  tvdbId : Int := 0
deriving DecidableEq

/-- Embeds models.MissingFilesReport (models.go). -/
structure MissingFilesReport where
  generatedAt : String
  runType : String
  serviceType : String
  totalMissing : Int
  missingFiles : List MissingFileEntry
deriving DecidableEq

/-- Embeds models.CleanupResult (models.go). -/
structure CleanupResult where
  stats : CleanupStats
  messages : List String
  success : Bool
  report : MissingFilesReport
deriving DecidableEq

/-- Converts a list of decimal digit chars to a Nat, embedding the
numeric part of strconv.Atoi on the digits captured by the regexes in
models.go (overflow past 63 bits is not modelled; the claims only
involve small identifiers). -/
def digitsToNat (l : List Char) : Nat :=
  l.foldl (fun acc c => acc * 10 + (c.toNat - 48)) 0

/-- Tries to match the pattern tag ++ digits+ ++ rbracket at the head
of a char list, the anchored step of the regex search in
ParseTMDBIDFromPath and ParseTVDBIDFromPath. -/
def matchTagAt (tag : List Char) (l : List Char) : Option Nat :=
  if List.isPrefixOf tag l then
    let rest := l.drop tag.length
    let digits := rest.takeWhile Char.isDigit
    if digits.isEmpty then none
    else
      match (rest.drop digits.length).head? with
      | some c => if c = ']' then some (digitsToNat digits) else none
      | none => none
  else none

/-- Leftmost regex match of the bracketed catalog tag, embedding
regexp.FindStringSubmatch for the patterns in models.go (the digit
class and the closing bracket are disjoint, so the greedy digit run
followed by a literal bracket is exactly the regex semantics). -/
def findTag (tag : List Char) : List Char → Option Nat
  | [] => none
  | c :: rest =>
    match matchTagAt tag (c :: rest) with
    | some n => some n
    | none => findTag tag rest

/-- Embeds models.ParseTMDBIDFromPath (models.go lines 143-158). -/
def ParseTMDBIDFromPath (filePath : String) : Except String Int :=
  match findTag "[tmdb-".data filePath.data with
  | some n => Except.ok (Int.ofNat n)
  | none => Except.error ("TMDB ID not found in path: " ++ filePath)

/-- Embeds models.ParseTVDBIDFromPath (models.go lines 192-207). -/
def ParseTVDBIDFromPath (filePath : String) : Except String Int :=
  match findTag "[tvdb-".data filePath.data with
  | some n => Except.ok (Int.ofNat n)
  | none => Except.error ("TVDB ID not found in path: " ++ filePath)

/-- Embeds the deduplication key computation of
deduplicateMissingFiles (cleanup.go lines 102-112). -/
def dedupKey (e : MissingFileEntry) : String :=
  if e.mediaType = "movie" ∧ 0 < e.tmdbId then
    "movie-tmdb-" ++ toString e.tmdbId
  else if e.mediaType = "series" ∧ 0 < e.tvdbId then
    "series-tvdb-" ++ toString e.tvdbId
  else
    e.mediaType ++ "-path-" ++ e.filePath

/-- Embeds the merge decision of deduplicateMissingFiles for two
entries sharing a key (cleanup.go lines 115-131): a positive FileID
wins over a zero FileID, otherwise the later ProcessedAt wins and the
existing entry is kept on ties. -/
def mergeEntries (existing entry : MissingFileEntry) : MissingFileEntry :=
  if 0 < entry.fileID ∧ existing.fileID = 0 then entry
  else if entry.fileID = 0 ∧ 0 < existing.fileID then existing
  else if strLt existing.processedAt entry.processedAt then entry else existing

/-- Embeds one insertion into the entryMap of deduplicateMissingFiles,
the Go map being modelled as an association list with unique keys in
insertion order. -/
def updateMap : List (String × MissingFileEntry) → MissingFileEntry →
    List (String × MissingFileEntry)
  | [], e => [(dedupKey e, e)]
  | (k, ex) :: rest, e =>
    if k = dedupKey e then (k, mergeEntries ex e) :: rest
    else (k, ex) :: updateMap rest e

/-- Inserts an entry into a list sorted ascending by ProcessedAt. -/
def insertSorted (e : MissingFileEntry) : List MissingFileEntry → List MissingFileEntry
  | [] => [e]
  | x :: xs =>
    if strLt e.processedAt x.processedAt then e :: x :: xs
    else x :: insertSorted e xs

/-- Embeds the sort.Slice call of deduplicateMissingFiles (cleanup.go
lines 141-143): sort.Slice produces some permutation ordered ascending
by ProcessedAt, realised here by insertion sort. -/
def sortByProcessedAt (l : List MissingFileEntry) : List MissingFileEntry :=
  l.foldr insertSorted []

/-- Embeds deduplicateMissingFiles (cleanup.go lines 96-146). -/
def deduplicateMissingFiles (entries : List MissingFileEntry) : List MissingFileEntry :=
  let entryMap := entries.foldl updateMap []
  let deduplicated := entryMap.map Prod.snd
  sortByProcessedAt deduplicated

/-- Records one backend or filesystem call made during a run; the
constructors cover the mutating operations plus the catalog lookups
the symlink recoverer performs. -/
inductive Call where
  | deleteEpisodeFile (id : Int)
  | deleteMovieFile (id : Int)
  | deleteSymlink (path : String)
  | addMovie (tmdbId : Int)
  | addSeries (tvdbId : Int)
  | triggerRefresh
  | lookupMovieByTMDBID (id : Int)
  | lookupSeriesByTVDBID (id : Int)
deriving DecidableEq

/-- Marks the calls that mutate the backend or the filesystem; the two
catalog lookups are read-only. -/
def isMutating : Call → Bool
  | Call.lookupMovieByTMDBID _ => false
  | Call.lookupSeriesByTVDBID _ => false
  | _ => true

/-- Distinguishes the context-cancellation error from ordinary
failures, mirroring the result.err == ctx.Err() comparison in the
collection loops of cleanup.go. -/
inductive RunErr where
  | cancelled
  | failure (msg : String)
deriving DecidableEq

/-- Message text of a run error, embedding err.Error(). -/
def RunErr.message : RunErr → String
  | RunErr.cancelled => "context canceled"
  | RunErr.failure m => m

/-- Embeds the configuration fields of CleanupServiceImpl (cleanup.go
lines 23-38) that influence behaviour. -/
structure Service where
  dryRun : Bool
  concurrentLimit : Int
  qualityProfileID : Int
  addMissingMovies : Bool
  requestDelay : Int

/-- Embeds the media backend client, the filesystem checker and the
clock as one deterministic environment: each operation is a function
of its arguments. -/
structure Env where
  clientName : String
  testConnection : Except String Unit
  getAllSeries : Except String (List Series)
  getAllMovies : Except String (List Movie)
  getEpisodesForSeries : Int → Except String (List Episode)
  getEpisodeFile : Int → Except String EpisodeFile
  deleteEpisodeFile : Int → Except String Unit
  getMovie : Int → Except String Movie
  getMovieFile : Int → Except String MovieFile
  deleteMovieFile : Int → Except String Unit
  triggerRefresh : Except String Unit
  getRootFolders : Except String (List RootFolder)
  getMovieByTMDBID : Int → Except String Movie
  lookupMovieByTMDBID : Int → Except String MovieLookup
  addMovie : Movie → Except String Movie
  getSeriesByTVDBID : Int → Except String Series
  lookupSeriesByTVDBID : Int → Except String SeriesLookup
  addSeries : Series → Except String Series
  fileExists : String → Bool
  findBrokenSymlinks : String → List String → Except String (List String)
  deleteSymlink : String → Except String Unit
  clock : Nat → String

/-- Cancellation schedule of the run context: the item index from
which every worker observes ctx.Done as closed (context cancellation
is monotone). -/
structure Ctx where
  cancelFrom : Option Nat

/-- Tells whether the worker for the item at the given dispatch index
observes the context as cancelled. -/
def cancelledAt (c : Ctx) (i : Nat) : Bool :=
  match c.cancelFrom with
  | none => false
  | some k => decide (k ≤ i)

/-- Mutable state of one run: the missing-file registry, the two
name caches, the clock tick and the recorded call trace. -/
structure St where
  missingFiles : List MissingFileEntry
  seriesInfo : List (Int × String)
  movieInfo : List (Int × String)
  tick : Nat
  trace : List Call

/-- Initial run state. -/
def initSt : St :=
  { missingFiles := [], seriesInfo := [], movieInfo := [], tick := 0, trace := [] }

/-- Sets a key in a Go map modelled as an association list. -/
def mapSet : List (Int × String) → Int → String → List (Int × String)
  | [], k, v => [(k, v)]
  | (k1, v1) :: rest, k, v =>
    if k1 = k then (k, v) :: rest else (k1, v1) :: mapSet rest k v

/-- Looks a key up in a Go map modelled as an association list. -/
def mapGet : List (Int × String) → Int → Option String
  | [], _ => none
  | (k1, v1) :: rest, k => if k1 = k then some v1 else mapGet rest k

/-- Embeds addMissingFileEntry (cleanup.go lines 89-93). -/
def addMissingFileEntry (st : St) (entry : MissingFileEntry) : St :=
  { st with missingFiles := st.missingFiles ++ [entry] }

/-- Embeds setSeriesInfo (cleanup.go lines 171-178). -/
def setSeriesInfo (st : St) (seriesID : Int) (seriesName : String) : St :=
  { st with seriesInfo := mapSet st.seriesInfo seriesID seriesName }

/-- Embeds getSeriesInfo (cleanup.go lines 181-188). -/
def getSeriesInfo (st : St) (seriesID : Int) : String :=
  match mapGet st.seriesInfo seriesID with
  | some name => name
  | none => "Series " ++ toString seriesID

/-- Embeds setMovieInfo (cleanup.go lines 191-198). -/
def setMovieInfo (st : St) (movieID : Int) (movieName : String) : St :=
  { st with movieInfo := mapSet st.movieInfo movieID movieName }

/-- Embeds getMovieInfo (cleanup.go lines 201-208). -/
def getMovieInfo (st : St) (movieID : Int) : String :=
  match mapGet st.movieInfo movieID with
  | some name => name
  | none => "Movie " ++ toString movieID

/-- Embeds one call of time.Now().Format(time.RFC3339): reads the
clock at the current tick and advances the tick. -/
def nowTick (env : Env) (st : St) : String × St :=
  (env.clock st.tick, { st with tick := st.tick + 1 })

/-- Appends one call to the recorded trace. -/
def recordCall (c : Call) (st : St) : St :=
  { st with trace := st.trace ++ [c] }

/-- Embeds buildReport (cleanup.go lines 149-168). -/
def buildReport (s : Service) (env : Env) (st : St) : MissingFilesReport × St :=
  let genAt := (nowTick env st).1
  let st1 := (nowTick env st).2
  let runType := if s.dryRun then "dry-run" else "real-run"
  let deduplicatedFiles := deduplicateMissingFiles st1.missingFiles
  ({ generatedAt := genAt, runType := runType, serviceType := env.clientName,
     totalMissing := Int.ofNat deduplicatedFiles.length,
     missingFiles := deduplicatedFiles }, st1)

/-- Embeds the episode worker body of cleanupSeries (cleanup.go lines
603-704): check cancellation, fetch the episode file, classify a
not-found fetch error as informational, probe the filesystem, record
a missing entry, and delete the stale record unless dry-run. -/
def episodeWorker (s : Service) (env : Env) (cancelled : Bool) (ep : Episode)
    (st : St) : (CleanupStats × Option RunErr) × St :=
  if cancelled then ((⟨0, 0, 0, 0⟩, some RunErr.cancelled), st)
  else
    match ep.episodeFileId with
    | none => ((⟨0, 0, 0, 0⟩, none), st)
    | some fid =>
      match env.getEpisodeFile fid with
      | Except.error e =>
        if containsNotFound e then ((⟨1, 0, 0, 0⟩, none), st)
        else ((⟨1, 0, 0, 1⟩, none), st)
      | Except.ok episodeFile =>
        if episodeFile.path = "" then ((⟨1, 0, 0, 0⟩, none), st)
        else if env.fileExists episodeFile.path then ((⟨1, 0, 0, 0⟩, none), st)
        else
          let seriesName := getSeriesInfo st ep.seriesId
          let missingEntry : MissingFileEntry :=
            { mediaType := "series", mediaName := seriesName,
              episodeName := ep.title, season := some ep.seasonNumber,
              episode := some ep.episodeNumber, filePath := episodeFile.path,
              fileID := fid, processedAt := (nowTick env st).1 }
          let st2 := addMissingFileEntry (nowTick env st).2 missingEntry
          if s.dryRun then ((⟨1, 1, 0, 0⟩, none), st2)
          else
            let st3 := recordCall (Call.deleteEpisodeFile fid) st2
            match env.deleteEpisodeFile fid with
            | Except.error _ => ((⟨1, 1, 0, 1⟩, none), st3)
            | Except.ok _ => ((⟨1, 1, 1, 0⟩, none), st3)

/-- Embeds the episode result collection loop of cleanupSeries
(cleanup.go lines 601-727), processing the filtered episodes in
dispatch order and aggregating their stats; a cancellation result
returns the aggregate so far together with the context error. -/
def processEpisodes (s : Service) (env : Env) (cancelled : Bool) :
    List Episode → CleanupStats → St → (CleanupStats × Option RunErr) × St
  | [], acc, st => ((acc, none), st)
  | ep :: rest, acc, st =>
    let r := episodeWorker s env cancelled ep st
    match r.1.2 with
    | some RunErr.cancelled => ((acc, some RunErr.cancelled), r.2)
    | _ =>
      let epStats := r.1.1
      processEpisodes s env cancelled rest
        ⟨acc.totalItemsChecked + epStats.totalItemsChecked,
         acc.missingFiles + epStats.missingFiles,
         acc.deletedRecords + epStats.deletedRecords,
         acc.errors + epStats.errors⟩ r.2

/-- Embeds cleanupSeries (cleanup.go lines 559-730). -/
def cleanupSeries (s : Service) (env : Env) (cancelled : Bool) (seriesID : Int)
    (st : St) : (CleanupStats × Option RunErr) × St :=
  match env.getEpisodesForSeries seriesID with
  | Except.error e =>
    ((⟨0, 0, 0, 0⟩,
      some (RunErr.failure
        ("failed to get episodes for series " ++ toString seriesID ++ ": " ++ e))), st)
  | Except.ok episodes =>
    if episodes.isEmpty then ((⟨0, 0, 0, 0⟩, none), st)
    else
      let episodesWithFiles :=
        episodes.filter (fun ep => ep.hasFile && ep.episodeFileId.isSome)
      if episodesWithFiles.isEmpty then ((⟨0, 0, 0, 0⟩, none), st)
      else processEpisodes s env cancelled episodesWithFiles ⟨0, 0, 0, 0⟩ st

/-- Embeds cleanupMovie (cleanup.go lines 733-825). -/
def cleanupMovie (s : Service) (env : Env) (movieID : Int) (st : St) :
    (CleanupStats × Option RunErr) × St :=
  match env.getMovie movieID with
  | Except.error e =>
    ((⟨0, 0, 0, 0⟩,
      some (RunErr.failure ("failed to get movie " ++ toString movieID ++ ": " ++ e))), st)
  | Except.ok targetMovie =>
    match targetMovie.hasFile, targetMovie.movieFileId with
    | true, some mfid =>
      match env.getMovieFile mfid with
      | Except.error e =>
        if containsNotFound e then ((⟨1, 0, 0, 0⟩, none), st)
        else ((⟨1, 0, 0, 1⟩, none), st)
      | Except.ok movieFile =>
        if movieFile.path = "" then ((⟨1, 0, 0, 0⟩, none), st)
        else if env.fileExists movieFile.path then ((⟨1, 0, 0, 0⟩, none), st)
        else
          let movieName := getMovieInfo st targetMovie.id
          let missingEntry : MissingFileEntry :=
            { mediaType := "movie", mediaName := movieName,
              filePath := movieFile.path, fileID := mfid,
              processedAt := (nowTick env st).1, tmdbId := targetMovie.tmdbId }
          let st2 := addMissingFileEntry (nowTick env st).2 missingEntry
          if s.dryRun then ((⟨1, 1, 0, 0⟩, none), st2)
          else
            let st3 := recordCall (Call.deleteMovieFile mfid) st2
            match env.deleteMovieFile mfid with
            | Except.error _ => ((⟨1, 1, 0, 1⟩, none), st3)
            | Except.ok _ => ((⟨1, 1, 1, 0⟩, none), st3)
    | _, _ => ((⟨0, 0, 0, 0⟩, none), st)

/-- Embeds the movie file extension list of handleBrokenSymlinks
(cleanup.go line 845). -/
def movieExtensions : List String :=
  [".mkv", ".mp4", ".avi", ".mov", ".wmv", ".flv", ".webm", ".m4v"]

/-- Embeds the series file extension list of
handleBrokenSymlinksForSeries (cleanup.go line 1026). -/
def seriesExtensions : List String :=
  [".mkv", ".mp4", ".avi", ".mov", ".wmv", ".flv", ".webm", ".m4v"]

/-- Embeds the root folder selection of handleBrokenSymlink
(cleanup.go lines 944-957): the first root folder whose path prefixes
the symlink path, falling back to the first configured folder. -/
def pickRootFolder (symlinkPath : String) (rootFolders : List RootFolder) :
    Option RootFolder :=
  match rootFolders.find? (fun folder => strStartsWith symlinkPath folder.path) with
  | some folder => some folder
  | none => rootFolders.head?

/-- Embeds the tail of handleBrokenSymlink after the symlink deletion
step (cleanup.go lines 914-1006): collection check, catalog lookup,
root folder choice, optional add-to-collection, report entry. -/
def handleBrokenSymlinkResolved (s : Service) (env : Env) (symlinkPath : String)
    (rootFolders : List RootFolder) (tmdbID : Int) (st : St) :
    (CleanupStats × Option RunErr) × St :=
  match env.getMovieByTMDBID tmdbID with
  | Except.ok existingMovie =>
    let missingEntry : MissingFileEntry :=
      { mediaType := "movie", mediaName := existingMovie.title,
        filePath := symlinkPath, fileID := 0, processedAt := (nowTick env st).1,
        addedToCollection := false, tmdbId := tmdbID }
    ((⟨1, 1, 0, 0⟩, none), addMissingFileEntry (nowTick env st).2 missingEntry)
  | Except.error _ =>
    let st1 := recordCall (Call.lookupMovieByTMDBID tmdbID) st
    match env.lookupMovieByTMDBID tmdbID with
    | Except.error e =>
      ((⟨1, 0, 0, 0⟩,
        some (RunErr.failure
          ("failed to lookup movie with TMDB ID " ++ toString tmdbID ++ ": " ++ e))), st1)
    | Except.ok movieLookup =>
      match pickRootFolder symlinkPath rootFolders with
      | none =>
        ((⟨1, 0, 0, 0⟩, some (RunErr.failure "no suitable root folder found for movie")), st1)
      | some selectedRootFolder =>
        let movieToAdd : Movie :=
          { id := 0, title := movieLookup.title, path := "",
            year := movieLookup.year, hasFile := false, movieFileId := none,
            tmdbId := movieLookup.tmdbId, monitored := true,
            qualityProfileId := s.qualityProfileID,
            rootFolderPath := selectedRootFolder.path }
        let finish := fun (stx : St) =>
          let missingEntry : MissingFileEntry :=
            { mediaType := "movie", mediaName := movieLookup.title,
              filePath := symlinkPath, fileID := 0,
              processedAt := (nowTick env stx).1,
              addedToCollection := s.addMissingMovies && !s.dryRun,
              tmdbId := tmdbID }
          ((⟨1, 1, 0, 0⟩, (none : Option RunErr)),
            addMissingFileEntry (nowTick env stx).2 missingEntry)
        if s.addMissingMovies && !s.dryRun then
          let st2 := recordCall (Call.addMovie movieToAdd.tmdbId) st1
          match env.addMovie movieToAdd with
          | Except.error e =>
            ((⟨1, 0, 0, 0⟩,
              some (RunErr.failure ("failed to add movie " ++ movieLookup.title ++ ": " ++ e))), st2)
          | Except.ok addedMovie =>
            finish (setMovieInfo st2 addedMovie.id addedMovie.title)
        else finish st1

/-- Embeds handleBrokenSymlink (cleanup.go lines 887-1006). -/
def handleBrokenSymlink (s : Service) (env : Env) (symlinkPath : String)
    (rootFolders : List RootFolder) (st : St) : (CleanupStats × Option RunErr) × St :=
  match ParseTMDBIDFromPath symlinkPath with
  | Except.error _ => ((⟨1, 0, 0, 0⟩, none), st)
  | Except.ok tmdbID =>
    if s.dryRun then handleBrokenSymlinkResolved s env symlinkPath rootFolders tmdbID st
    else
      let st1 := recordCall (Call.deleteSymlink symlinkPath) st
      match env.deleteSymlink symlinkPath with
      | Except.error e =>
        ((⟨1, 0, 0, 1⟩,
          some (RunErr.failure
            ("failed to delete broken symlink " ++ symlinkPath ++ ": " ++ e))), st1)
      | Except.ok _ => handleBrokenSymlinkResolved s env symlinkPath rootFolders tmdbID st1

/-- Embeds the tail of handleBrokenSymlinkForSeries after the symlink
deletion step (cleanup.go lines 1095-1185). -/
def handleBrokenSymlinkForSeriesResolved (s : Service) (env : Env)
    (symlinkPath : String) (rootFolders : List RootFolder) (tvdbID : Int) (st : St) :
    (CleanupStats × Option RunErr) × St :=
  match env.getSeriesByTVDBID tvdbID with
  | Except.ok existingSeries =>
    let missingEntry : MissingFileEntry :=
      { mediaType := "series", mediaName := existingSeries.title,
        filePath := symlinkPath, fileID := 0, processedAt := (nowTick env st).1,
        addedToCollection := false, tvdbId := tvdbID }
    ((⟨1, 1, 0, 0⟩, none), addMissingFileEntry (nowTick env st).2 missingEntry)
  | Except.error _ =>
    let st1 := recordCall (Call.lookupSeriesByTVDBID tvdbID) st
    match env.lookupSeriesByTVDBID tvdbID with
    | Except.error e =>
      ((⟨1, 0, 0, 0⟩,
        some (RunErr.failure
          ("failed to lookup series with TVDB ID " ++ toString tvdbID ++ ": " ++ e))), st1)
    | Except.ok seriesLookup =>
      match pickRootFolder symlinkPath rootFolders with
      | none =>
        ((⟨1, 0, 0, 0⟩, some (RunErr.failure "no suitable root folder found for series")), st1)
      | some selectedRootFolder =>
        let seriesToAdd : Series :=
          { id := 0, title := seriesLookup.title, path := "", seasonCount := 0,
            tvdbId := seriesLookup.tvdbId, monitored := true,
            qualityProfileId := s.qualityProfileID,
            rootFolderPath := selectedRootFolder.path }
        let finish := fun (stx : St) =>
          let missingEntry : MissingFileEntry :=
            { mediaType := "series", mediaName := seriesLookup.title,
              filePath := symlinkPath, fileID := 0,
              processedAt := (nowTick env stx).1,
              addedToCollection := s.addMissingMovies && !s.dryRun,
              tvdbId := tvdbID }
          ((⟨1, 1, 0, 0⟩, (none : Option RunErr)),
            addMissingFileEntry (nowTick env stx).2 missingEntry)
        if s.addMissingMovies && !s.dryRun then
          let st2 := recordCall (Call.addSeries seriesToAdd.tvdbId) st1
          match env.addSeries seriesToAdd with
          | Except.error e =>
            ((⟨1, 0, 0, 0⟩,
              some (RunErr.failure
                ("failed to add series " ++ seriesLookup.title ++ ": " ++ e))), st2)
          | Except.ok addedSeries =>
            finish (setSeriesInfo st2 addedSeries.id addedSeries.title)
        else finish st1

/-- Embeds handleBrokenSymlinkForSeries (cleanup.go lines 1068-1185). -/
def handleBrokenSymlinkForSeries (s : Service) (env : Env) (symlinkPath : String)
    (rootFolders : List RootFolder) (st : St) : (CleanupStats × Option RunErr) × St :=
  match ParseTVDBIDFromPath symlinkPath with
  | Except.error _ => ((⟨1, 0, 0, 0⟩, none), st)
  | Except.ok tvdbID =>
    if s.dryRun then handleBrokenSymlinkForSeriesResolved s env symlinkPath rootFolders tvdbID st
    else
      let st1 := recordCall (Call.deleteSymlink symlinkPath) st
      match env.deleteSymlink symlinkPath with
      | Except.error e =>
        ((⟨1, 0, 0, 1⟩,
          some (RunErr.failure
            ("failed to delete broken symlink " ++ symlinkPath ++ ": " ++ e))), st1)
      | Except.ok _ =>
        handleBrokenSymlinkForSeriesResolved s env symlinkPath rootFolders tvdbID st1

/-- Embeds the root folder scan loop of handleBrokenSymlinks
(cleanup.go lines 848-861), accumulating broken symlinks and counting
scan failures as errors. -/
def collectBrokenSymlinks (env : Env) (extensions : List String) :
    List RootFolder → CleanupStats → List String → CleanupStats × List String
  | [], stats, acc => (stats, acc)
  | folder :: rest, stats, acc =>
    match env.findBrokenSymlinks folder.path extensions with
    | Except.error _ =>
      collectBrokenSymlinks env extensions rest
        ⟨stats.totalItemsChecked, stats.missingFiles, stats.deletedRecords,
         stats.errors + 1⟩ acc
    | Except.ok brokenSymlinks =>
      collectBrokenSymlinks env extensions rest stats (acc ++ brokenSymlinks)

/-- Embeds the per-symlink loop of handleBrokenSymlinks (cleanup.go
lines 871-881): a failed item adds one error and its stats are
discarded, a successful item contributes its checked and missing
counts. -/
def processSymlinks (s : Service) (env : Env) (rootFolders : List RootFolder)
    (handler : Service → Env → String → List RootFolder → St →
      (CleanupStats × Option RunErr) × St) :
    List String → CleanupStats → St → CleanupStats × St
  | [], stats, st => (stats, st)
  | symlinkPath :: rest, stats, st =>
    let r := handler s env symlinkPath rootFolders st
    match r.1.2 with
    | some _ =>
      processSymlinks s env rootFolders handler rest
        ⟨stats.totalItemsChecked, stats.missingFiles, stats.deletedRecords,
         stats.errors + 1⟩ r.2
    | none =>
      processSymlinks s env rootFolders handler rest
        ⟨stats.totalItemsChecked + r.1.1.totalItemsChecked,
         stats.missingFiles + r.1.1.missingFiles, stats.deletedRecords,
         stats.errors⟩ r.2

/-- Embeds handleBrokenSymlinks (cleanup.go lines 828-884). -/
def handleBrokenSymlinks (s : Service) (env : Env) (st : St) :
    (CleanupStats × Option RunErr) × St :=
  match env.getRootFolders with
  | Except.error e =>
    ((⟨0, 0, 0, 0⟩, some (RunErr.failure ("failed to get root folders: " ++ e))), st)
  | Except.ok rootFolders =>
    if rootFolders.isEmpty then ((⟨0, 0, 0, 0⟩, none), st)
    else
      let scanned := collectBrokenSymlinks env movieExtensions rootFolders ⟨0, 0, 0, 0⟩ []
      if scanned.2.isEmpty then ((scanned.1, none), st)
      else
        let r := processSymlinks s env rootFolders handleBrokenSymlink scanned.2 scanned.1 st
        ((r.1, none), r.2)

/-- Embeds handleBrokenSymlinksForSeries (cleanup.go lines 1009-1065). -/
def handleBrokenSymlinksForSeries (s : Service) (env : Env) (st : St) :
    (CleanupStats × Option RunErr) × St :=
  match env.getRootFolders with
  | Except.error e =>
    ((⟨0, 0, 0, 0⟩, some (RunErr.failure ("failed to get root folders: " ++ e))), st)
  | Except.ok rootFolders =>
    if rootFolders.isEmpty then ((⟨0, 0, 0, 0⟩, none), st)
    else
      let scanned := collectBrokenSymlinks env seriesExtensions rootFolders ⟨0, 0, 0, 0⟩ []
      if scanned.2.isEmpty then ((scanned.1, none), st)
      else
        let r := processSymlinks s env rootFolders handleBrokenSymlinkForSeries scanned.2 scanned.1 st
        ((r.1, none), r.2)

/-- Embeds the broken-symlink step of CleanupMissingFilesForMovies
(cleanup.go lines 431-447): for a radarr client, symlink handling runs
first; its failure only adds a message, its success merges checked,
missing and error counts (not deleted records). -/
def symlinkPhaseMovies (s : Service) (env : Env) (st : St) :
    (CleanupStats × List String) × St :=
  if env.clientName = "radarr" then
    let r := handleBrokenSymlinks s env st
    match r.1.2 with
    | some e =>
      ((⟨0, 0, 0, 0⟩, ["Broken symlink handling failed: " ++ e.message]), r.2)
    | none =>
      ((⟨r.1.1.totalItemsChecked, r.1.1.missingFiles, 0, r.1.1.errors⟩, []), r.2)
  else ((⟨0, 0, 0, 0⟩, []), st)

/-- Embeds the broken-symlink step of CleanupMissingFilesForSeries
(cleanup.go lines 295-311). -/
def symlinkPhaseSeries (s : Service) (env : Env) (st : St) :
    (CleanupStats × List String) × St :=
  if env.clientName = "sonarr" then
    let r := handleBrokenSymlinksForSeries s env st
    match r.1.2 with
    | some e =>
      ((⟨0, 0, 0, 0⟩, ["Broken symlink handling failed: " ++ e.message]), r.2)
    | none =>
      ((⟨r.1.1.totalItemsChecked, r.1.1.missingFiles, 0, r.1.1.errors⟩, []), r.2)
  else ((⟨0, 0, 0, 0⟩, []), st)

/-- Embeds the refresh step and result assembly shared by the tails of
CleanupMissingFilesForSeries and CleanupMissingFilesForMovies
(cleanup.go lines 406-419 and 542-555): one refresh call when any
record was deleted and the run is not dry-run, whose failure only
appends a message; success holds iff the error count is zero. -/
def refreshAndFinish (s : Service) (env : Env) (stats : CleanupStats)
    (messages : List String) (st : St) : (CleanupResult × Option RunErr) × St :=
  if 0 < stats.deletedRecords ∧ s.dryRun = false then
    let st1 := recordCall Call.triggerRefresh st
    let messages1 :=
      match env.triggerRefresh with
      | Except.error e => messages ++ ["Failed to trigger refresh: " ++ e]
      | Except.ok _ => messages
    let r := buildReport s env st1
    (({ stats := stats, messages := messages1, success := stats.errors == 0,
        report := r.1 }, none), r.2)
  else
    let r := buildReport s env st
    (({ stats := stats, messages := messages, success := stats.errors == 0,
        report := r.1 }, none), r.2)

/-- Embeds the dispatch and collection loop of
CleanupMissingFilesForMovies (cleanup.go lines 461-535) in dispatch
order: a worker that observes cancellation yields the partial result
with success false; a failed item adds an error and a message; a
successful item merges its stats. -/
def processMovieItems (s : Service) (env : Env) (ctx : Ctx) :
    List Int → Nat → CleanupStats → List String → St →
    (Sum (CleanupStats × List String) (CleanupResult × Option RunErr)) × St
  | [], _, stats, messages, st => (Sum.inl (stats, messages), st)
  | movieID :: rest, i, stats, messages, st =>
    if cancelledAt ctx i then
      let r := buildReport s env st
      (Sum.inr ({ stats := stats, messages := messages, success := false,
                  report := r.1 }, some RunErr.cancelled), r.2)
    else
      let r := cleanupMovie s env movieID st
      match r.1.2 with
      | some RunErr.cancelled =>
        let rep := buildReport s env r.2
        (Sum.inr ({ stats := stats, messages := messages, success := false,
                    report := rep.1 }, some RunErr.cancelled), rep.2)
      | some (RunErr.failure m) =>
        processMovieItems s env ctx rest (i + 1)
          ⟨stats.totalItemsChecked, stats.missingFiles, stats.deletedRecords,
           stats.errors + 1⟩
          (messages ++ ["Error processing movie " ++ toString movieID ++ ": " ++ m]) r.2
      | none =>
        processMovieItems s env ctx rest (i + 1)
          ⟨stats.totalItemsChecked + r.1.1.totalItemsChecked,
           stats.missingFiles + r.1.1.missingFiles,
           stats.deletedRecords + r.1.1.deletedRecords,
           stats.errors + r.1.1.errors⟩ messages r.2

/-- Embeds the dispatch and collection loop of
CleanupMissingFilesForSeries (cleanup.go lines 326-399). -/
def processSeriesItems (s : Service) (env : Env) (ctx : Ctx) :
    List Int → Nat → CleanupStats → List String → St →
    (Sum (CleanupStats × List String) (CleanupResult × Option RunErr)) × St
  | [], _, stats, messages, st => (Sum.inl (stats, messages), st)
  | seriesID :: rest, i, stats, messages, st =>
    if cancelledAt ctx i then
      let r := buildReport s env st
      (Sum.inr ({ stats := stats, messages := messages, success := false,
                  report := r.1 }, some RunErr.cancelled), r.2)
    else
      let r := cleanupSeries s env (cancelledAt ctx i) seriesID st
      match r.1.2 with
      | some RunErr.cancelled =>
        let rep := buildReport s env r.2
        (Sum.inr ({ stats := stats, messages := messages, success := false,
                    report := rep.1 }, some RunErr.cancelled), rep.2)
      | some (RunErr.failure m) =>
        processSeriesItems s env ctx rest (i + 1)
          ⟨stats.totalItemsChecked, stats.missingFiles, stats.deletedRecords,
           stats.errors + 1⟩
          (messages ++ ["Error processing series " ++ toString seriesID ++ ": " ++ m]) r.2
      | none =>
        processSeriesItems s env ctx rest (i + 1)
          ⟨stats.totalItemsChecked + r.1.1.totalItemsChecked,
           stats.missingFiles + r.1.1.missingFiles,
           stats.deletedRecords + r.1.1.deletedRecords,
           stats.errors + r.1.1.errors⟩ messages r.2

/-- Embeds CleanupMissingFilesForMovies (cleanup.go lines 423-556). -/
def CleanupMissingFilesForMovies (s : Service) (env : Env) (ctx : Ctx)
    (movieIDs : List Int) (st : St) : (CleanupResult × Option RunErr) × St :=
  let phase := symlinkPhaseMovies s env st
  match processMovieItems s env ctx movieIDs 0 phase.1.1 phase.1.2 phase.2 with
  | (Sum.inl (stats, messages), st2) => refreshAndFinish s env stats messages st2
  | (Sum.inr r, st2) => (r, st2)

/-- Embeds CleanupMissingFilesForSeries (cleanup.go lines 287-420). -/
def CleanupMissingFilesForSeries (s : Service) (env : Env) (ctx : Ctx)
    (seriesIDs : List Int) (st : St) : (CleanupResult × Option RunErr) × St :=
  let phase := symlinkPhaseSeries s env st
  match processSeriesItems s env ctx seriesIDs 0 phase.1.1 phase.1.2 phase.2 with
  | (Sum.inl (stats, messages), st2) => refreshAndFinish s env stats messages st2
  | (Sum.inr r, st2) => (r, st2)

/-- Embeds CleanupMissingFiles (cleanup.go lines 210-284): connection
test, inventory fetch, name cache fill, then delegation to the
per-kind run; fatal failures abort with no partial result. -/
def CleanupMissingFiles (s : Service) (env : Env) (ctx : Ctx) (st : St) :
    Except String ((CleanupResult × Option RunErr) × St) :=
  match env.testConnection with
  | Except.error e => Except.error ("connection test failed: " ++ e)
  | Except.ok _ =>
    if env.clientName = "sonarr" then
      match env.getAllSeries with
      | Except.error e => Except.error ("failed to fetch series: " ++ e)
      | Except.ok series =>
        if series.isEmpty then
          let r := buildReport s env st
          Except.ok
            (({ stats := ⟨0, 0, 0, 0⟩, messages := [], success := true,
                report := r.1 }, none), r.2)
        else
          let st1 := series.foldl (fun acc sr => setSeriesInfo acc sr.id sr.title) st
          Except.ok (CleanupMissingFilesForSeries s env ctx (series.map (fun sr => sr.id)) st1)
    else if env.clientName = "radarr" then
      match env.getAllMovies with
      | Except.error e => Except.error ("failed to fetch movies: " ++ e)
      | Except.ok movies =>
        if movies.isEmpty then
          let r := buildReport s env st
          Except.ok
            (({ stats := ⟨0, 0, 0, 0⟩, messages := [], success := true,
                report := r.1 }, none), r.2)
        else
          let st1 := movies.foldl (fun acc mv => setMovieInfo acc mv.id mv.title) st
          Except.ok (CleanupMissingFilesForMovies s env ctx (movies.map (fun mv => mv.id)) st1)
    else Except.error ("unsupported client type: " ++ env.clientName)

/-- Embeds the per-series episode concurrency cap (cleanup.go line
587): the inner pool capacity is min(concurrentLimit, 3). -/
def episodeConcurrency (s : Service) : Int :=
  min s.concurrentLimit 3

/-- Abstract state of one bounded worker pool built on a buffered
channel used as a counting semaphore (cleanup.go lines 313-314,
332-333, 586-588, 607-608): counts workers that have not yet acquired
a slot, workers holding a slot (only these can be executing an item
reconciler or episode worker), and finished workers. -/
structure PoolState where
  notStarted : Nat
  holding : Nat
  finished : Nat
deriving DecidableEq

/-- One scheduler step of the semaphore protocol: a send on the
buffered channel (possible only while fewer than cap slots are taken)
or the deferred receive releasing a slot. -/
inductive poolStep (cap : Nat) : PoolState → PoolState → Prop
  | acquire (w a d : Nat) : a < cap →
      poolStep cap ⟨w + 1, a, d⟩ ⟨w, a + 1, d⟩
  | release (w a d : Nat) :
      poolStep cap ⟨w, a + 1, d⟩ ⟨w, a, d + 1⟩

/-- States reachable by the pool of n workers from the initial state
in which nobody holds a slot. -/
inductive poolReachable (cap n : Nat) : PoolState → Prop
  | init : poolReachable cap n ⟨n, 0, 0⟩
  | step {st st' : PoolState} : poolReachable cap n st → poolStep cap st st' →
      poolReachable cap n st'

/-- Holds when every call in the list is non-mutating: the absence of
delete, add and refresh operations. -/
def MutFree (l : List Call) : Prop :=
  ∀ c ∈ l, isMutating c = false

/-- Invariant of the calls recorded before the final refresh step: no
refresh call is ever issued there, and under dry-run no mutating call
at all is issued. -/
def PhaseCalls (s : Service) (l : List Call) : Prop :=
  (∀ c ∈ l, c ≠ Call.triggerRefresh) ∧ (s.dryRun = true → MutFree l)

/-- Baseline service configuration for concrete runs (the defaults of
NewCleanupService with dry-run off). -/
def svc0 : Service :=
  { dryRun := false, concurrentLimit := 5, qualityProfileID := 12,
    addMissingMovies := false, requestDelay := 0 }

/-- Baseline deterministic environment for concrete runs: a radarr
client with an empty inventory, empty root folders and a fixed clock. -/
def env0 : Env :=
  { clientName := "radarr"
    testConnection := Except.ok ()
    getAllSeries := Except.ok []
    getAllMovies := Except.ok []
    getEpisodesForSeries := fun _ => Except.ok []
    getEpisodeFile := fun _ => Except.error "backend failure"
    deleteEpisodeFile := fun _ => Except.ok ()
    getMovie := fun _ => Except.error "backend failure"
    getMovieFile := fun _ => Except.error "backend failure"
    deleteMovieFile := fun _ => Except.ok ()
    triggerRefresh := Except.ok ()
    getRootFolders := Except.ok []
    getMovieByTMDBID := fun _ => Except.error "movie not in collection"
    lookupMovieByTMDBID := fun _ => Except.error "lookup failure"
    addMovie := fun m => Except.ok m
    getSeriesByTVDBID := fun _ => Except.error "series not in collection"
    lookupSeriesByTVDBID := fun _ => Except.error "lookup failure"
    addSeries := fun sr => Except.ok sr
    fileExists := fun _ => false
    findBrokenSymlinks := fun _ _ => Except.ok []
    deleteSymlink := fun _ => Except.ok ()
    clock := fun _ => "2024-01-01T00:00:00Z" }

/-- Concrete movie with a file record, used by the cancellation
counterexamples. -/
def movie1 : Movie :=
  { id := 1, title := "Example Movie", path := "", year := 2020,
    hasFile := true, movieFileId := some 10, tmdbId := 7, monitored := false,
    qualityProfileId := 1, rootFolderPath := "" }

/-- Environment in which movie 1 has a stale file record 10 whose path
is absent on disk. -/
def envDel : Env :=
  { env0 with
    getMovie := fun i => if i = 1 then Except.ok movie1 else Except.error "backend failure"
    getMovieFile := fun i =>
      if i = 10 then Except.ok { id := 10, path := "/movies/m.mkv", movieId := 1 }
      else Except.error "backend failure" }

/-- Colliding entry with a negative file-record ID (same movie key as
cexEntryZero). -/
def cexEntryNeg : MissingFileEntry :=
  { mediaType := "movie", mediaName := "A", filePath := "/movies/a.mkv",
    fileID := -1, processedAt := "2024-01-01T00:00:01Z", tmdbId := 7 }

/-- Colliding entry with file-record ID zero and a later timestamp. -/
def cexEntryZero : MissingFileEntry :=
  { mediaType := "movie", mediaName := "A", filePath := "/movies/a.mkv",
    fileID := 0, processedAt := "2024-01-01T00:00:02Z", tmdbId := 7 }

/-- Colliding entry with file-record ID zero (dedup priority witness). -/
def witEntryZero : MissingFileEntry :=
  { mediaType := "movie", mediaName := "B", filePath := "/movies/b.mkv",
    fileID := 0, processedAt := "2024-01-01T00:00:03Z", tmdbId := 9 }

/-- Colliding entry with file-record ID 137 and an earlier timestamp
(dedup priority witness). -/
def witEntry137 : MissingFileEntry :=
  { mediaType := "movie", mediaName := "B", filePath := "/movies/b.mkv",
    fileID := 137, processedAt := "2024-01-01T00:00:01Z", tmdbId := 9 }

/-- Episode fixture: claims a file, record 11, file absent on disk. -/
def ep1 : Episode :=
  { id := 101, seriesId := 9, seasonNumber := 1, episodeNumber := 1,
    title := "E1", hasFile := true, episodeFileId := some 11 }

/-- Episode fixture: claims a file, record 12, file present on disk. -/
def ep2 : Episode :=
  { id := 102, seriesId := 9, seasonNumber := 1, episodeNumber := 2,
    title := "E2", hasFile := true, episodeFileId := some 12 }

/-- Episode fixture: claims no file. -/
def ep3 : Episode :=
  { id := 103, seriesId := 9, seasonNumber := 1, episodeNumber := 3,
    title := "E3", hasFile := false, episodeFileId := none }

/-- Environment for Scenario A: series 9 has the three fixture
episodes, record 11 points to an absent path, record 12 to a present
one. -/
def envScenA : Env :=
  { env0 with
    clientName := "sonarr"
    getEpisodesForSeries := fun i =>
      if i = 9 then Except.ok [ep1, ep2, ep3] else Except.ok []
    getEpisodeFile := fun i =>
      if i = 11 then Except.ok { id := 11, path := "/tv/a.mkv" }
      else if i = 12 then Except.ok { id := 12, path := "/tv/b.mkv" }
      else Except.error "backend failure"
    fileExists := fun p => p = "/tv/b.mkv" }

/-- Broken symlink path carrying the tag of TMDB ID 555. -/
def symlinkPath555 : String :=
  "/movies/Movie (2020) [tmdb-555]/movie.mkv"

/-- Root folder containing the fixture symlink path. -/
def rootFolderMovies : RootFolder :=
  { id := 1, path := "/movies", name := "Movies" }

/-- Environment for Scenario D: TMDB 555 is absent from the
collection, its catalog lookup succeeds, adding succeeds. -/
def envScenD : Env :=
  { env0 with
    lookupMovieByTMDBID := fun i =>
      if i = 555 then Except.ok { tmdbId := 555, title := "Movie", year := 2020 }
      else Except.error "lookup failure" }

/-- Service with the add-missing-media flag enabled, not dry-run. -/
def svcAdd : Service :=
  { svc0 with addMissingMovies := true }

/-- Service flagged dry-run. -/
def svcDry : Service :=
  { svc0 with dryRun := true }

/-- Environment whose episode-file fetch fails with a not-found style
error. -/
def envNotFound : Env :=
  { env0 with
    getEpisodeFile := fun _ => Except.error "Episode file Not Found"
    getMovieFile := fun _ => Except.error "404 NOT FOUND"
    getMovie := fun i => if i = 1 then Except.ok movie1 else Except.error "backend failure" }

/-- Structured deduplication key as the claim states it: movie entries
with a positive TMDB ID key on that ID, series entries with a positive
TVDB ID key on that ID, all others key on media type and file path. -/
inductive DedupKey where
  | movieTmdb (n : Int)
  | seriesTvdb (n : Int)
  | byPath (mediaType filePath : String)
deriving DecidableEq

/-- The deduplication key of an entry in the structured form used by
the uniqueness claim. -/
def claimKey (e : MissingFileEntry) : DedupKey :=
  if e.mediaType = "movie" ∧ 0 < e.tmdbId then DedupKey.movieTmdb e.tmdbId
  else if e.mediaType = "series" ∧ 0 < e.tvdbId then DedupKey.seriesTvdb e.tvdbId
  else DedupKey.byPath e.mediaType e.filePath

/-- Invariant of the modelled Go entryMap: every stored value hashes
to its stored key, and the stored keys are pairwise distinct. -/
def GoodMap (m : List (String × MissingFileEntry)) : Prop :=
  (∀ p ∈ m, dedupKey p.2 = p.1) ∧ (m.map Prod.fst).Nodup

theorem trace_recordCall (c : Call) (st : St) :
    (recordCall c st).trace = st.trace ++ [c] := rfl

theorem trace_addMissingFileEntry (st : St) (e : MissingFileEntry) :
    (addMissingFileEntry st e).trace = st.trace := rfl

theorem trace_nowTick (env : Env) (st : St) :
    ((nowTick env st).2).trace = st.trace := rfl

theorem trace_setSeriesInfo (st : St) (i : Int) (n : String) :
    (setSeriesInfo st i n).trace = st.trace := rfl

theorem trace_setMovieInfo (st : St) (i : Int) (n : String) :
    (setMovieInfo st i n).trace = st.trace := rfl

theorem trace_buildReport (s : Service) (env : Env) (st : St) :
    ((buildReport s env st).2).trace = st.trace := rfl

theorem mergeEntries_or (a b : MissingFileEntry) :
    mergeEntries a b = a ∨ mergeEntries a b = b := by
  unfold mergeEntries
  split
  · exact Or.inr rfl
  split
  · exact Or.inl rfl
  split
  · exact Or.inr rfl
  · exact Or.inl rfl

theorem updateMap_fst (m : List (String × MissingFileEntry)) (e : MissingFileEntry) :
    (updateMap m e).map Prod.fst =
      if dedupKey e ∈ m.map Prod.fst then m.map Prod.fst
      else m.map Prod.fst ++ [dedupKey e] := by
  induction m with
  | nil => simp [updateMap]
  | cons p rest ih =>
    obtain ⟨k, ex⟩ := p
    by_cases hk : k = dedupKey e
    · subst hk
      simp [updateMap]
    · simp only [updateMap, if_neg hk, List.map_cons, ih]
      have hne : ¬ dedupKey e = k := fun h => hk h.symm
      by_cases hmem : dedupKey e ∈ rest.map Prod.fst
      · simp [hmem, hne]
      · simp [hmem, hne]

theorem updateMap_pairs (m : List (String × MissingFileEntry)) (e : MissingFileEntry)
    (h : ∀ p ∈ m, dedupKey p.2 = p.1) :
    ∀ p ∈ updateMap m e, dedupKey p.2 = p.1 := by
  induction m with
  | nil =>
    intro p hp
    simp only [updateMap, List.mem_singleton] at hp
    subst hp
    rfl
  | cons q rest ih =>
    obtain ⟨k, ex⟩ := q
    intro p hp
    by_cases hk : k = dedupKey e
    · simp only [updateMap, if_pos hk, List.mem_cons] at hp
      rcases hp with hp | hp
      · subst hp
        rcases mergeEntries_or ex e with hm | hm
        · rw [hm]
          exact h (k, ex) (by simp)
        · rw [hm]
          exact hk.symm
      · exact h p (List.mem_cons_of_mem _ hp)
    · simp only [updateMap, if_neg hk, List.mem_cons] at hp
      rcases hp with hp | hp
      · subst hp
        exact h (k, ex) (by simp)
      · exact ih (fun q hq => h q (List.mem_cons_of_mem _ hq)) p hp

theorem goodMap_updateMap (m : List (String × MissingFileEntry)) (e : MissingFileEntry)
    (h : GoodMap m) : GoodMap (updateMap m e) := by
  refine ⟨updateMap_pairs m e h.1, ?_⟩
  rw [updateMap_fst]
  by_cases hmem : dedupKey e ∈ m.map Prod.fst
  · simpa [hmem] using h.2
  · simp only [hmem, if_false]
    rw [List.nodup_append]
    exact ⟨h.2, List.nodup_singleton _, by simpa using hmem⟩

theorem goodMap_foldl (entries : List MissingFileEntry) :
    ∀ m, GoodMap m → GoodMap (entries.foldl updateMap m) := by
  induction entries with
  | nil => intro m h; simpa using h
  | cons e rest ih =>
    intro m h
    simpa using ih (updateMap m e) (goodMap_updateMap m e h)

theorem pairs_map_keys (m : List (String × MissingFileEntry))
    (h : ∀ p ∈ m, dedupKey p.2 = p.1) :
    (m.map Prod.snd).map dedupKey = m.map Prod.fst := by
  induction m with
  | nil => rfl
  | cons p rest ih =>
    simp only [List.map_cons]
    rw [h p (by simp), ih (fun q hq => h q (List.mem_cons_of_mem _ hq))]

theorem goodMap_values_pairwise (m : List (String × MissingFileEntry)) (h : GoodMap m) :
    List.Pairwise (fun a b => dedupKey a ≠ dedupKey b) (m.map Prod.snd) := by
  have hnodup : ((m.map Prod.snd).map dedupKey).Nodup := by
    rw [pairs_map_keys m h.1]
    exact h.2
  exact List.pairwise_map.mp hnodup

theorem insertSorted_perm (e : MissingFileEntry) (l : List MissingFileEntry) :
    (insertSorted e l).Perm (e :: l) := by
  induction l with
  | nil => exact List.Perm.refl _
  | cons x xs ih =>
    unfold insertSorted
    split
    · exact List.Perm.refl _
    · exact (List.Perm.cons x ih).trans (List.Perm.swap e x xs)

theorem sortByProcessedAt_perm (l : List MissingFileEntry) :
    (sortByProcessedAt l).Perm l := by
  induction l with
  | nil => exact List.Perm.refl _
  | cons x xs ih =>
    exact (insertSorted_perm x (sortByProcessedAt xs)).trans (List.Perm.cons x ih)

theorem claimKey_eq_imp (a b : MissingFileEntry) (h : claimKey a = claimKey b) :
    dedupKey a = dedupKey b := by
  unfold claimKey at h
  unfold dedupKey
  by_cases h1 : a.mediaType = "movie" ∧ 0 < a.tmdbId <;>
    by_cases h2 : a.mediaType = "series" ∧ 0 < a.tvdbId <;>
    by_cases h3 : b.mediaType = "movie" ∧ 0 < b.tmdbId <;>
    by_cases h4 : b.mediaType = "series" ∧ 0 < b.tvdbId <;>
    simp only [h1, h2, h3, h4, if_true, if_false, ite_true, ite_false] at h ⊢ <;>
    simp_all

theorem dedup_pairwise_keys (entries : List MissingFileEntry) :
    List.Pairwise (fun a b => claimKey a ≠ claimKey b)
      (deduplicateMissingFiles entries) := by
  have hgood : GoodMap (entries.foldl updateMap []) :=
    goodMap_foldl entries [] ⟨by simp, by simp⟩
  have hpair := goodMap_values_pairwise _ hgood
  have hperm := sortByProcessedAt_perm ((entries.foldl updateMap []).map Prod.snd)
  have hsym : ∀ {x y : MissingFileEntry},
      dedupKey x ≠ dedupKey y → dedupKey y ≠ dedupKey x :=
    fun h e => h e.symm
  have : List.Pairwise (fun a b => dedupKey a ≠ dedupKey b)
      (deduplicateMissingFiles entries) :=
    (List.Perm.pairwise_iff hsym hperm).mpr hpair
  exact this.imp (fun hab hk => hab (claimKey_eq_imp _ _ hk))

theorem strLtList_asymm (x : List Char) :
    ∀ y, strLtList x y = true → strLtList y x = false := by
  induction x with
  | nil =>
    intro y h
    cases y with
    | nil => simp [strLtList] at h
    | cons b bs => simp [strLtList]
  | cons a as ih =>
    intro y h
    cases y with
    | nil => simp [strLtList] at h
    | cons b bs =>
      unfold strLtList at h ⊢
      by_cases hab : a.toNat < b.toNat
      · have hba : ¬ b.toNat < a.toNat := by omega
        simp [hab, hba]
      · by_cases hba : b.toNat < a.toNat
        · simp [hab, hba] at h
        · rw [if_neg hab, if_neg hba] at h
          rw [if_neg hba, if_neg hab]
          exact ih bs h

theorem strLt_asymm (a b : String) (h : strLt a b = true) : strLt b a = false :=
  strLtList_asymm a.data b.data h

theorem dedup_pair (a b : MissingFileEntry) (h : dedupKey a = dedupKey b) :
    deduplicateMissingFiles [a, b] = [mergeEntries a b] := by
  simp [deduplicateMissingFiles, updateMap, h, sortByProcessedAt, insertSorted]

/-- C3: in every report produced by buildReport, no two entries of the
MissingFiles list share a deduplication key, the key being
(movie, TMDBID) for a movie entry with positive TMDBID,
(series, TVDBID) for a series entry with positive TVDBID, and
(MediaType, FilePath) otherwise. -/
theorem c3_dedup_unique_keys (s : Service) (env : Env) (st : St) :
    List.Pairwise (fun a b => claimKey a ≠ claimKey b)
      ((buildReport s env st).1.missingFiles) :=
  dedup_pairwise_keys st.missingFiles

/-- C10: every report produced by buildReport has TotalMissing equal
to the length of its deduplicated MissingFiles list, and RunType
"dry-run" exactly when the dry-run flag is set, "real-run" otherwise. -/
theorem c10_report_invariants (s : Service) (env : Env) (st : St) :
    (buildReport s env st).1.totalMissing =
      Int.ofNat ((buildReport s env st).1.missingFiles).length ∧
    ((buildReport s env st).1.runType = "dry-run" ↔ s.dryRun = true) ∧
    ((buildReport s env st).1.runType = "real-run" ↔ s.dryRun = false) := by
  have h1 : (buildReport s env st).1.runType =
      (if s.dryRun then "dry-run" else "real-run") := rfl
  refine ⟨rfl, ?_, ?_⟩ <;> rw [h1] <;> cases s.dryRun <;> simp

/-- C4 counterexample: two colliding entries with FileIDs -1 and 0,
where exactly one FileID is nonzero, yet deduplication retains the
zero-FileID entry (the code prefers positive FileIDs, not nonzero
ones, and otherwise falls back to the later timestamp). -/
theorem c4_nonzero_counterexample :
    deduplicateMissingFiles [cexEntryNeg, cexEntryZero] = [cexEntryZero] ∧
    cexEntryNeg.fileID ≠ 0 ∧ cexEntryZero.fileID = 0 ∧
    claimKey cexEntryNeg = claimKey cexEntryZero ∧
    cexEntryNeg ≠ cexEntryZero := by
  refine ⟨by decide, by decide, by decide, by decide, by decide⟩

/-- C4 amended: for deduplicateMissingFiles applied to a pair of
entries colliding on the deduplication key, when exactly one entry has
a positive FileID (the other zero) that entry is retained; when both
have positive FileIDs or both have FileID zero, the entry with the
later ProcessedAt timestamp is retained. -/
theorem c4_dedup_priority_amended (a b : MissingFileEntry)
    (hk : dedupKey a = dedupKey b) :
    (a.fileID = 0 → 0 < b.fileID → deduplicateMissingFiles [a, b] = [b]) ∧
    (0 < a.fileID → b.fileID = 0 → deduplicateMissingFiles [a, b] = [a]) ∧
    ((0 < a.fileID ∧ 0 < b.fileID) ∨ (a.fileID = 0 ∧ b.fileID = 0) →
      (strLt a.processedAt b.processedAt = true →
        deduplicateMissingFiles [a, b] = [b]) ∧
      (strLt b.processedAt a.processedAt = true →
        deduplicateMissingFiles [a, b] = [a])) := by
  rw [dedup_pair a b hk]
  refine ⟨?_, ?_, ?_⟩
  · intro h0 hb
    unfold mergeEntries
    rw [if_pos ⟨hb, h0⟩]
  · intro ha h0
    unfold mergeEntries
    rw [if_neg (by omega), if_pos ⟨h0, ha⟩]
  · rintro (⟨ha, hb⟩ | ⟨ha, hb⟩) <;> refine ⟨fun hlt => ?_, fun hlt => ?_⟩ <;>
      unfold mergeEntries <;> rw [if_neg (by omega), if_neg (by omega)]
    · simp [hlt]
    · simp [strLt_asymm _ _ hlt]
    · simp [hlt]
    · simp [strLt_asymm _ _ hlt]

/-- C4 witness: colliding raw entries with FileIDs 0 and 137 are
deduplicated to the entry with FileID 137. -/
theorem c4_dedup_priority_witness :
    deduplicateMissingFiles [witEntryZero, witEntry137] = [witEntry137] :=
  (c4_dedup_priority_amended witEntryZero witEntry137 (by decide)).1
    (by decide) (by decide)

theorem phaseCalls_nil (s : Service) : PhaseCalls s [] :=
  ⟨by simp, fun _ => by simp [MutFree]⟩

theorem phaseCalls_append {s : Service} {l1 l2 : List Call}
    (h1 : PhaseCalls s l1) (h2 : PhaseCalls s l2) : PhaseCalls s (l1 ++ l2) := by
  refine ⟨?_, ?_⟩
  · intro c hc
    rcases List.mem_append.mp hc with h | h
    · exact h1.1 c h
    · exact h2.1 c h
  · intro hd c hc
    rcases List.mem_append.mp hc with h | h
    · exact h1.2 hd c h
    · exact h2.2 hd c h

theorem phaseCalls_of_dryRun_false {s : Service} {l : List Call}
    (hd : s.dryRun = false) (h : ∀ c ∈ l, c ≠ Call.triggerRefresh) :
    PhaseCalls s l :=
  ⟨h, fun ht => by rw [ht] at hd; cases hd⟩

theorem phaseCalls_lookupMovie (s : Service) (n : Int) :
    PhaseCalls s [Call.lookupMovieByTMDBID n] := by
  refine ⟨by simp, fun _ c hc => ?_⟩
  simp only [List.mem_singleton] at hc
  subst hc
  rfl

theorem phaseCalls_lookupSeries (s : Service) (n : Int) :
    PhaseCalls s [Call.lookupSeriesByTVDBID n] := by
  refine ⟨by simp, fun _ c hc => ?_⟩
  simp only [List.mem_singleton] at hc
  subst hc
  rfl

theorem episodeWorker_calls (s : Service) (env : Env) (c : Bool) (ep : Episode)
    (st : St) :
    ∃ l, ((episodeWorker s env c ep st).2).trace = st.trace ++ l ∧ PhaseCalls s l := by
  unfold episodeWorker
  split
  · exact ⟨[], by simp, phaseCalls_nil s⟩
  split
  · exact ⟨[], by simp, phaseCalls_nil s⟩
  rename_i fid hfid
  split
  · split
    · exact ⟨[], by simp, phaseCalls_nil s⟩
    · exact ⟨[], by simp, phaseCalls_nil s⟩
  split
  · exact ⟨[], by simp, phaseCalls_nil s⟩
  split
  · exact ⟨[], by simp, phaseCalls_nil s⟩
  split
  · exact ⟨[], by simp [addMissingFileEntry, nowTick], phaseCalls_nil s⟩
  rename_i hdry
  split <;>
    exact ⟨[Call.deleteEpisodeFile fid],
      by simp [recordCall, addMissingFileEntry, nowTick],
      phaseCalls_of_dryRun_false (by simpa using hdry) (by simp)⟩

theorem cleanupMovie_calls (s : Service) (env : Env) (movieID : Int) (st : St) :
    ∃ l, ((cleanupMovie s env movieID st).2).trace = st.trace ++ l ∧ PhaseCalls s l := by
  unfold cleanupMovie
  split
  · exact ⟨[], by simp, phaseCalls_nil s⟩
  split
  · rename_i mfid hhas hmf
    split
    · split
      · exact ⟨[], by simp, phaseCalls_nil s⟩
      · exact ⟨[], by simp, phaseCalls_nil s⟩
    split
    · exact ⟨[], by simp, phaseCalls_nil s⟩
    split
    · exact ⟨[], by simp, phaseCalls_nil s⟩
    split
    · exact ⟨[], by simp [addMissingFileEntry, nowTick], phaseCalls_nil s⟩
    rename_i hdry
    split <;>
      exact ⟨[Call.deleteMovieFile mfid],
        by simp [recordCall, addMissingFileEntry, nowTick],
        phaseCalls_of_dryRun_false (by simpa using hdry) (by simp)⟩
  · exact ⟨[], by simp, phaseCalls_nil s⟩

theorem mutFree_append {t l : List Call} (ht : MutFree t) (hl : MutFree l) :
    MutFree (t ++ l) := by
  intro c hc
  rcases List.mem_append.mp hc with h | h
  · exact ht c h
  · exact hl c h

theorem processEpisodes_calls (s : Service) (env : Env) (c : Bool)
    (eps : List Episode) :
    ∀ (acc : CleanupStats) (st : St),
    ∃ l, ((processEpisodes s env c eps acc st).2).trace = st.trace ++ l ∧
      PhaseCalls s l := by
  induction eps with
  | nil => intro acc st; exact ⟨[], by simp [processEpisodes], phaseCalls_nil s⟩
  | cons ep rest ih =>
    intro acc st
    obtain ⟨l1, h1, p1⟩ := episodeWorker_calls s env c ep st
    simp only [processEpisodes]
    split
    · exact ⟨l1, h1, p1⟩
    · obtain ⟨l2, h2, p2⟩ := ih _ ((episodeWorker s env c ep st).2)
      exact ⟨l1 ++ l2, by rw [h2, h1, List.append_assoc], phaseCalls_append p1 p2⟩

theorem cleanupSeries_calls (s : Service) (env : Env) (c : Bool) (seriesID : Int)
    (st : St) :
    ∃ l, ((cleanupSeries s env c seriesID st).2).trace = st.trace ++ l ∧
      PhaseCalls s l := by
  unfold cleanupSeries
  split
  · exact ⟨[], by simp, phaseCalls_nil s⟩
  split
  · exact ⟨[], by simp, phaseCalls_nil s⟩
  dsimp only
  split
  · exact ⟨[], by simp, phaseCalls_nil s⟩
  exact processEpisodes_calls s env c _ _ st

theorem handleBrokenSymlinkResolved_calls (s : Service) (env : Env)
    (symlinkPath : String) (rootFolders : List RootFolder) (tmdbID : Int) (st : St) :
    ∃ l, ((handleBrokenSymlinkResolved s env symlinkPath rootFolders tmdbID st).2).trace =
      st.trace ++ l ∧ PhaseCalls s l := by
  unfold handleBrokenSymlinkResolved
  split
  · exact ⟨[], by simp [addMissingFileEntry, nowTick], phaseCalls_nil s⟩
  split
  · exact ⟨[Call.lookupMovieByTMDBID tmdbID], by simp [recordCall],
      phaseCalls_lookupMovie s tmdbID⟩
  split
  · exact ⟨[Call.lookupMovieByTMDBID tmdbID], by simp [recordCall],
      phaseCalls_lookupMovie s tmdbID⟩
  rename_i xl movieLookup hlook xp folder hpick
  split
  · rename_i hflag
    have hd : s.dryRun = false := by
      simp only [Bool.and_eq_true, Bool.not_eq_true'] at hflag
      exact hflag.2
    dsimp only
    split
    · exact ⟨[Call.lookupMovieByTMDBID tmdbID, Call.addMovie movieLookup.tmdbId],
        by simp [recordCall],
        phaseCalls_of_dryRun_false hd (by simp)⟩
    · exact ⟨[Call.lookupMovieByTMDBID tmdbID, Call.addMovie movieLookup.tmdbId],
        by simp [recordCall, addMissingFileEntry, nowTick, setMovieInfo],
        phaseCalls_of_dryRun_false hd (by simp)⟩
  · exact ⟨[Call.lookupMovieByTMDBID tmdbID],
      by simp [recordCall, addMissingFileEntry, nowTick],
      phaseCalls_lookupMovie s tmdbID⟩

theorem handleBrokenSymlink_calls (s : Service) (env : Env) (symlinkPath : String)
    (rootFolders : List RootFolder) (st : St) :
    ∃ l, ((handleBrokenSymlink s env symlinkPath rootFolders st).2).trace =
      st.trace ++ l ∧ PhaseCalls s l := by
  unfold handleBrokenSymlink
  split
  · exact ⟨[], by simp, phaseCalls_nil s⟩
  rename_i tmdbID hparse
  split
  · exact handleBrokenSymlinkResolved_calls s env symlinkPath rootFolders tmdbID st
  rename_i hdry
  have hd : s.dryRun = false := by simpa using hdry
  split
  · exact ⟨[Call.deleteSymlink symlinkPath], by simp [recordCall],
      phaseCalls_of_dryRun_false hd (by simp)⟩
  · obtain ⟨l2, h2, p2⟩ := handleBrokenSymlinkResolved_calls s env symlinkPath
      rootFolders tmdbID (recordCall (Call.deleteSymlink symlinkPath) st)
    exact ⟨[Call.deleteSymlink symlinkPath] ++ l2,
      by rw [h2]; simp [recordCall],
      phaseCalls_append (phaseCalls_of_dryRun_false hd (by simp)) p2⟩

theorem handleBrokenSymlinkForSeriesResolved_calls (s : Service) (env : Env)
    (symlinkPath : String) (rootFolders : List RootFolder) (tvdbID : Int) (st : St) :
    ∃ l, ((handleBrokenSymlinkForSeriesResolved s env symlinkPath rootFolders tvdbID st).2).trace =
      st.trace ++ l ∧ PhaseCalls s l := by
  unfold handleBrokenSymlinkForSeriesResolved
  split
  · exact ⟨[], by simp [addMissingFileEntry, nowTick], phaseCalls_nil s⟩
  split
  · exact ⟨[Call.lookupSeriesByTVDBID tvdbID], by simp [recordCall],
      phaseCalls_lookupSeries s tvdbID⟩
  split
  · exact ⟨[Call.lookupSeriesByTVDBID tvdbID], by simp [recordCall],
      phaseCalls_lookupSeries s tvdbID⟩
  rename_i xl seriesLookup hlook xp folder hpick
  split
  · rename_i hflag
    have hd : s.dryRun = false := by
      simp only [Bool.and_eq_true, Bool.not_eq_true'] at hflag
      exact hflag.2
    dsimp only
    split
    · exact ⟨[Call.lookupSeriesByTVDBID tvdbID, Call.addSeries seriesLookup.tvdbId],
        by simp [recordCall],
        phaseCalls_of_dryRun_false hd (by simp)⟩
    · exact ⟨[Call.lookupSeriesByTVDBID tvdbID, Call.addSeries seriesLookup.tvdbId],
        by simp [recordCall, addMissingFileEntry, nowTick, setSeriesInfo],
        phaseCalls_of_dryRun_false hd (by simp)⟩
  · exact ⟨[Call.lookupSeriesByTVDBID tvdbID],
      by simp [recordCall, addMissingFileEntry, nowTick],
      phaseCalls_lookupSeries s tvdbID⟩

theorem handleBrokenSymlinkForSeries_calls (s : Service) (env : Env)
    (symlinkPath : String) (rootFolders : List RootFolder) (st : St) :
    ∃ l, ((handleBrokenSymlinkForSeries s env symlinkPath rootFolders st).2).trace =
      st.trace ++ l ∧ PhaseCalls s l := by
  unfold handleBrokenSymlinkForSeries
  split
  · exact ⟨[], by simp, phaseCalls_nil s⟩
  rename_i tvdbID hparse
  split
  · exact handleBrokenSymlinkForSeriesResolved_calls s env symlinkPath rootFolders tvdbID st
  rename_i hdry
  have hd : s.dryRun = false := by simpa using hdry
  split
  · exact ⟨[Call.deleteSymlink symlinkPath], by simp [recordCall],
      phaseCalls_of_dryRun_false hd (by simp)⟩
  · obtain ⟨l2, h2, p2⟩ := handleBrokenSymlinkForSeriesResolved_calls s env symlinkPath
      rootFolders tvdbID (recordCall (Call.deleteSymlink symlinkPath) st)
    exact ⟨[Call.deleteSymlink symlinkPath] ++ l2,
      by rw [h2]; simp [recordCall],
      phaseCalls_append (phaseCalls_of_dryRun_false hd (by simp)) p2⟩

theorem processSymlinks_calls (s : Service) (env : Env)
    (rootFolders : List RootFolder)
    (handler : Service → Env → String → List RootFolder → St →
      (CleanupStats × Option RunErr) × St)
    (hh : ∀ (p : String) (st : St),
      ∃ l, ((handler s env p rootFolders st).2).trace = st.trace ++ l ∧ PhaseCalls s l)
    (paths : List String) :
    ∀ (stats : CleanupStats) (st : St),
    ∃ l, ((processSymlinks s env rootFolders handler paths stats st).2).trace =
      st.trace ++ l ∧ PhaseCalls s l := by
  induction paths with
  | nil => intro stats st; exact ⟨[], by simp [processSymlinks], phaseCalls_nil s⟩
  | cons p rest ih =>
    intro stats st
    obtain ⟨l1, h1, p1⟩ := hh p st
    simp only [processSymlinks]
    split <;>
    · obtain ⟨l2, h2, p2⟩ := ih _ ((handler s env p rootFolders st).2)
      exact ⟨l1 ++ l2, by rw [h2, h1, List.append_assoc], phaseCalls_append p1 p2⟩

theorem handleBrokenSymlinks_calls (s : Service) (env : Env) (st : St) :
    ∃ l, ((handleBrokenSymlinks s env st).2).trace = st.trace ++ l ∧ PhaseCalls s l := by
  unfold handleBrokenSymlinks
  split
  · exact ⟨[], by simp, phaseCalls_nil s⟩
  rename_i rootFolders hroot
  split
  · exact ⟨[], by simp, phaseCalls_nil s⟩
  dsimp only
  split
  · exact ⟨[], by simp, phaseCalls_nil s⟩
  exact processSymlinks_calls s env rootFolders handleBrokenSymlink
    (fun p stx => handleBrokenSymlink_calls s env p rootFolders stx) _ _ st

theorem handleBrokenSymlinksForSeries_calls (s : Service) (env : Env) (st : St) :
    ∃ l, ((handleBrokenSymlinksForSeries s env st).2).trace = st.trace ++ l ∧
      PhaseCalls s l := by
  unfold handleBrokenSymlinksForSeries
  split
  · exact ⟨[], by simp, phaseCalls_nil s⟩
  rename_i rootFolders hroot
  split
  · exact ⟨[], by simp, phaseCalls_nil s⟩
  dsimp only
  split
  · exact ⟨[], by simp, phaseCalls_nil s⟩
  exact processSymlinks_calls s env rootFolders handleBrokenSymlinkForSeries
    (fun p stx => handleBrokenSymlinkForSeries_calls s env p rootFolders stx) _ _ st

theorem symlinkPhaseMovies_calls (s : Service) (env : Env) (st : St) :
    ∃ l, ((symlinkPhaseMovies s env st).2).trace = st.trace ++ l ∧ PhaseCalls s l := by
  unfold symlinkPhaseMovies
  split
  · obtain ⟨l1, h1, p1⟩ := handleBrokenSymlinks_calls s env st
    dsimp only
    split
    · exact ⟨l1, h1, p1⟩
    · exact ⟨l1, h1, p1⟩
  · exact ⟨[], by simp, phaseCalls_nil s⟩

theorem symlinkPhaseSeries_calls (s : Service) (env : Env) (st : St) :
    ∃ l, ((symlinkPhaseSeries s env st).2).trace = st.trace ++ l ∧ PhaseCalls s l := by
  unfold symlinkPhaseSeries
  split
  · obtain ⟨l1, h1, p1⟩ := handleBrokenSymlinksForSeries_calls s env st
    dsimp only
    split
    · exact ⟨l1, h1, p1⟩
    · exact ⟨l1, h1, p1⟩
  · exact ⟨[], by simp, phaseCalls_nil s⟩

theorem processMovieItems_calls (s : Service) (env : Env) (ctx : Ctx)
    (ids : List Int) :
    ∀ (i : Nat) (stats : CleanupStats) (messages : List String) (st : St),
    ∃ l, ((processMovieItems s env ctx ids i stats messages st).2).trace =
      st.trace ++ l ∧ PhaseCalls s l := by
  induction ids with
  | nil => intro i stats messages st; exact ⟨[], by simp [processMovieItems], phaseCalls_nil s⟩
  | cons movieID rest ih =>
    intro i stats messages st
    simp only [processMovieItems]
    split
    · exact ⟨[], by simp [buildReport, nowTick], phaseCalls_nil s⟩
    obtain ⟨l1, h1, p1⟩ := cleanupMovie_calls s env movieID st
    split
    · exact ⟨l1, by simp [buildReport, nowTick, h1], p1⟩
    · obtain ⟨l2, h2, p2⟩ := ih _ _ _ ((cleanupMovie s env movieID st).2)
      exact ⟨l1 ++ l2, by rw [h2, h1, List.append_assoc], phaseCalls_append p1 p2⟩
    · obtain ⟨l2, h2, p2⟩ := ih _ _ _ ((cleanupMovie s env movieID st).2)
      exact ⟨l1 ++ l2, by rw [h2, h1, List.append_assoc], phaseCalls_append p1 p2⟩

theorem processSeriesItems_calls (s : Service) (env : Env) (ctx : Ctx)
    (ids : List Int) :
    ∀ (i : Nat) (stats : CleanupStats) (messages : List String) (st : St),
    ∃ l, ((processSeriesItems s env ctx ids i stats messages st).2).trace =
      st.trace ++ l ∧ PhaseCalls s l := by
  induction ids with
  | nil => intro i stats messages st; exact ⟨[], by simp [processSeriesItems], phaseCalls_nil s⟩
  | cons seriesID rest ih =>
    intro i stats messages st
    simp only [processSeriesItems]
    split
    · exact ⟨[], by simp [buildReport, nowTick], phaseCalls_nil s⟩
    obtain ⟨l1, h1, p1⟩ := cleanupSeries_calls s env (cancelledAt ctx i) seriesID st
    split
    · exact ⟨l1, by simp [buildReport, nowTick, h1], p1⟩
    · obtain ⟨l2, h2, p2⟩ := ih _ _ _ ((cleanupSeries s env (cancelledAt ctx i) seriesID st).2)
      exact ⟨l1 ++ l2, by rw [h2, h1, List.append_assoc], phaseCalls_append p1 p2⟩
    · obtain ⟨l2, h2, p2⟩ := ih _ _ _ ((cleanupSeries s env (cancelledAt ctx i) seriesID st).2)
      exact ⟨l1 ++ l2, by rw [h2, h1, List.append_assoc], phaseCalls_append p1 p2⟩

theorem refreshAndFinish_out (s : Service) (env : Env) (stats : CleanupStats)
    (messages : List String) (st : St) :
    (refreshAndFinish s env stats messages st).1.1.stats = stats ∧
    (refreshAndFinish s env stats messages st).1.1.success = (stats.errors == 0) ∧
    (refreshAndFinish s env stats messages st).1.2 = none := by
  unfold refreshAndFinish
  split <;> exact ⟨rfl, rfl, rfl⟩

theorem refreshAndFinish_trace (s : Service) (env : Env) (stats : CleanupStats)
    (messages : List String) (st : St) :
    ((refreshAndFinish s env stats messages st).2).trace =
      st.trace ++
        (if 0 < stats.deletedRecords ∧ s.dryRun = false then [Call.triggerRefresh]
         else []) := by
  unfold refreshAndFinish
  split
  · simp [buildReport, nowTick, recordCall]
  · simp [buildReport, nowTick]

theorem refreshAndFinish_fail (s : Service) (env : Env) (stats : CleanupStats)
    (messages : List String) (st : St) (m : String)
    (herr : env.triggerRefresh = Except.error m)
    (hdel : 0 < stats.deletedRecords) (hdry : s.dryRun = false) :
    (refreshAndFinish s env stats messages st).1.1.messages =
      messages ++ ["Failed to trigger refresh: " ++ m] ∧
    (refreshAndFinish s env stats messages st).1.1.stats = stats ∧
    (refreshAndFinish s env stats messages st).1.1.success = (stats.errors == 0) := by
  unfold refreshAndFinish
  rw [if_pos ⟨hdel, hdry⟩, herr]
  exact ⟨rfl, rfl, rfl⟩

theorem processMovieItems_out (s : Service) (env : Env) (ctx : Ctx) (ids : List Int) :
    ∀ (i : Nat) (stats : CleanupStats) (messages : List String) (st : St)
      (res : CleanupResult × Option RunErr) (stx : St),
      processMovieItems s env ctx ids i stats messages st = (Sum.inr res, stx) →
      res.1.success = false ∧ res.2 = some RunErr.cancelled := by
  induction ids with
  | nil =>
    intro i stats messages st res stx h
    simp [processMovieItems] at h
  | cons movieID rest ih =>
    intro i stats messages st res stx h
    simp only [processMovieItems] at h
    split at h
    · simp only [Prod.mk.injEq, Sum.inr.injEq] at h
      obtain ⟨h1, -⟩ := h
      subst h1
      exact ⟨rfl, rfl⟩
    split at h
    · simp only [Prod.mk.injEq, Sum.inr.injEq] at h
      obtain ⟨h1, -⟩ := h
      subst h1
      exact ⟨rfl, rfl⟩
    · exact ih _ _ _ _ _ _ h
    · exact ih _ _ _ _ _ _ h

theorem processSeriesItems_out (s : Service) (env : Env) (ctx : Ctx) (ids : List Int) :
    ∀ (i : Nat) (stats : CleanupStats) (messages : List String) (st : St)
      (res : CleanupResult × Option RunErr) (stx : St),
      processSeriesItems s env ctx ids i stats messages st = (Sum.inr res, stx) →
      res.1.success = false ∧ res.2 = some RunErr.cancelled := by
  induction ids with
  | nil =>
    intro i stats messages st res stx h
    simp [processSeriesItems] at h
  | cons seriesID rest ih =>
    intro i stats messages st res stx h
    simp only [processSeriesItems] at h
    split at h
    · simp only [Prod.mk.injEq, Sum.inr.injEq] at h
      obtain ⟨h1, -⟩ := h
      subst h1
      exact ⟨rfl, rfl⟩
    split at h
    · simp only [Prod.mk.injEq, Sum.inr.injEq] at h
      obtain ⟨h1, -⟩ := h
      subst h1
      exact ⟨rfl, rfl⟩
    · exact ih _ _ _ _ _ _ h
    · exact ih _ _ _ _ _ _ h

theorem cleanupForMovies_success_iff (s : Service) (env : Env) (ctx : Ctx)
    (ids : List Int) (st : St) :
    (CleanupMissingFilesForMovies s env ctx ids st).1.1.success = true ↔
      ((CleanupMissingFilesForMovies s env ctx ids st).1.1.stats.errors = 0 ∧
       (CleanupMissingFilesForMovies s env ctx ids st).1.2 = none) := by
  unfold CleanupMissingFilesForMovies
  dsimp only
  split
  · rename_i stats messages st2 heq
    obtain ⟨h1, h2, h3⟩ := refreshAndFinish_out s env stats messages st2
    rw [h1, h2, h3]
    simp [beq_iff_eq]
  · rename_i res st2 heq
    obtain ⟨h1, h2⟩ := processMovieItems_out s env ctx ids _ _ _ _ res st2 heq
    simp [h1, h2]

theorem cleanupForSeries_success_iff (s : Service) (env : Env) (ctx : Ctx)
    (ids : List Int) (st : St) :
    (CleanupMissingFilesForSeries s env ctx ids st).1.1.success = true ↔
      ((CleanupMissingFilesForSeries s env ctx ids st).1.1.stats.errors = 0 ∧
       (CleanupMissingFilesForSeries s env ctx ids st).1.2 = none) := by
  unfold CleanupMissingFilesForSeries
  dsimp only
  split
  · rename_i stats messages st2 heq
    obtain ⟨h1, h2, h3⟩ := refreshAndFinish_out s env stats messages st2
    rw [h1, h2, h3]
    simp [beq_iff_eq]
  · rename_i res st2 heq
    obtain ⟨h1, h2⟩ := processSeriesItems_out s env ctx ids _ _ _ _ res st2 heq
    simp [h1, h2]

theorem cleanupMissingFiles_success_iff (s : Service) (env : Env) (ctx : Ctx)
    (st : St) :
    ∀ r, CleanupMissingFiles s env ctx st = Except.ok r →
      (r.1.1.success = true ↔ (r.1.1.stats.errors = 0 ∧ r.1.2 = none)) := by
  intro r h
  unfold CleanupMissingFiles at h
  split at h
  · cases h
  split at h
  · split at h
    · cases h
    split at h
    · simp only [Except.ok.injEq] at h
      subst h
      simp
    · simp only [Except.ok.injEq] at h
      subst h
      exact cleanupForSeries_success_iff s env ctx _ _
  split at h
  · split at h
    · cases h
    split at h
    · simp only [Except.ok.injEq] at h
      subst h
      simp
    · simp only [Except.ok.injEq] at h
      subst h
      exact cleanupForMovies_success_iff s env ctx _ _
  · cases h

theorem cleanupForMovies_calls (s : Service) (env : Env) (ctx : Ctx)
    (ids : List Int) (st : St) :
    ∃ l, ((CleanupMissingFilesForMovies s env ctx ids st).2).trace = st.trace ++ l ∧
      (∀ c ∈ l, c = Call.triggerRefresh →
        (0 < (CleanupMissingFilesForMovies s env ctx ids st).1.1.stats.deletedRecords ∧
          s.dryRun = false)) ∧
      (s.dryRun = true → MutFree l) := by
  obtain ⟨l0, h0, p0⟩ := symlinkPhaseMovies_calls s env st
  obtain ⟨l1, h1, p1⟩ := processMovieItems_calls s env ctx ids 0
    ((symlinkPhaseMovies s env st).1.1) ((symlinkPhaseMovies s env st).1.2)
    ((symlinkPhaseMovies s env st).2)
  unfold CleanupMissingFilesForMovies
  dsimp only
  split
  · rename_i stats messages st2 heq
    have hst2 : st2.trace = st.trace ++ (l0 ++ l1) := by
      have hx := congrArg (fun p => p.2.trace) heq
      dsimp only at hx
      rw [h1, h0, List.append_assoc] at hx
      exact hx.symm
    obtain ⟨hr1, hr2, hr3⟩ := refreshAndFinish_out s env stats messages st2
    refine ⟨(l0 ++ l1) ++
      (if 0 < stats.deletedRecords ∧ s.dryRun = false then [Call.triggerRefresh]
       else []), ?_, ?_, ?_⟩
    · rw [refreshAndFinish_trace, hst2, List.append_assoc]
    · intro c hc hrc
      rcases List.mem_append.mp hc with h | h
      · exfalso
        rcases List.mem_append.mp h with h | h
        · exact absurd hrc (p0.1 c h)
        · exact absurd hrc (p1.1 c h)
      · rw [hr1]
        split at h
        · rename_i hcond
          exact hcond
        · simp at h
    · intro hd
      have hcond : ¬ (0 < stats.deletedRecords ∧ s.dryRun = false) := by
        rintro ⟨-, hc⟩
        rw [hd] at hc
        cases hc
      rw [if_neg hcond, List.append_nil]
      exact mutFree_append (p0.2 hd) (p1.2 hd)
  · rename_i res st2 heq
    have hst2 : st2.trace = st.trace ++ (l0 ++ l1) := by
      have hx := congrArg (fun p => p.2.trace) heq
      dsimp only at hx
      rw [h1, h0, List.append_assoc] at hx
      exact hx.symm
    refine ⟨l0 ++ l1, hst2, ?_, ?_⟩
    · intro c hc hrc
      exfalso
      rcases List.mem_append.mp hc with h | h
      · exact absurd hrc (p0.1 c h)
      · exact absurd hrc (p1.1 c h)
    · intro hd
      exact mutFree_append (p0.2 hd) (p1.2 hd)

theorem cleanupForSeries_calls (s : Service) (env : Env) (ctx : Ctx)
    (ids : List Int) (st : St) :
    ∃ l, ((CleanupMissingFilesForSeries s env ctx ids st).2).trace = st.trace ++ l ∧
      (∀ c ∈ l, c = Call.triggerRefresh →
        (0 < (CleanupMissingFilesForSeries s env ctx ids st).1.1.stats.deletedRecords ∧
          s.dryRun = false)) ∧
      (s.dryRun = true → MutFree l) := by
  obtain ⟨l0, h0, p0⟩ := symlinkPhaseSeries_calls s env st
  obtain ⟨l1, h1, p1⟩ := processSeriesItems_calls s env ctx ids 0
    ((symlinkPhaseSeries s env st).1.1) ((symlinkPhaseSeries s env st).1.2)
    ((symlinkPhaseSeries s env st).2)
  unfold CleanupMissingFilesForSeries
  dsimp only
  split
  · rename_i stats messages st2 heq
    have hst2 : st2.trace = st.trace ++ (l0 ++ l1) := by
      have hx := congrArg (fun p => p.2.trace) heq
      dsimp only at hx
      rw [h1, h0, List.append_assoc] at hx
      exact hx.symm
    obtain ⟨hr1, hr2, hr3⟩ := refreshAndFinish_out s env stats messages st2
    refine ⟨(l0 ++ l1) ++
      (if 0 < stats.deletedRecords ∧ s.dryRun = false then [Call.triggerRefresh]
       else []), ?_, ?_, ?_⟩
    · rw [refreshAndFinish_trace, hst2, List.append_assoc]
    · intro c hc hrc
      rcases List.mem_append.mp hc with h | h
      · exfalso
        rcases List.mem_append.mp h with h | h
        · exact absurd hrc (p0.1 c h)
        · exact absurd hrc (p1.1 c h)
      · rw [hr1]
        split at h
        · rename_i hcond
          exact hcond
        · simp at h
    · intro hd
      have hcond : ¬ (0 < stats.deletedRecords ∧ s.dryRun = false) := by
        rintro ⟨-, hc⟩
        rw [hd] at hc
        cases hc
      rw [if_neg hcond, List.append_nil]
      exact mutFree_append (p0.2 hd) (p1.2 hd)
  · rename_i res st2 heq
    have hst2 : st2.trace = st.trace ++ (l0 ++ l1) := by
      have hx := congrArg (fun p => p.2.trace) heq
      dsimp only at hx
      rw [h1, h0, List.append_assoc] at hx
      exact hx.symm
    refine ⟨l0 ++ l1, hst2, ?_, ?_⟩
    · intro c hc hrc
      exfalso
      rcases List.mem_append.mp hc with h | h
      · exact absurd hrc (p0.1 c h)
      · exact absurd hrc (p1.1 c h)
    · intro hd
      exact mutFree_append (p0.2 hd) (p1.2 hd)

theorem foldl_setSeriesInfo_trace (l : List Series) :
    ∀ st : St,
      ((l.foldl (fun acc sr => setSeriesInfo acc sr.id sr.title) st)).trace = st.trace := by
  induction l with
  | nil => intro st; rfl
  | cons sr rest ih =>
    intro st
    simpa [setSeriesInfo] using ih (setSeriesInfo st sr.id sr.title)

theorem foldl_setMovieInfo_trace (l : List Movie) :
    ∀ st : St,
      ((l.foldl (fun acc mv => setMovieInfo acc mv.id mv.title) st)).trace = st.trace := by
  induction l with
  | nil => intro st; rfl
  | cons mv rest ih =>
    intro st
    simpa [setMovieInfo] using ih (setMovieInfo st mv.id mv.title)

theorem cleanupForMovies_refresh_mem (s : Service) (env : Env) (ctx : Ctx)
    (ids : List Int) (st : St) :
    (CleanupMissingFilesForMovies s env ctx ids st).1.2 = none →
    (0 < (CleanupMissingFilesForMovies s env ctx ids st).1.1.stats.deletedRecords ∧
      s.dryRun = false) →
    Call.triggerRefresh ∈ ((CleanupMissingFilesForMovies s env ctx ids st).2).trace := by
  unfold CleanupMissingFilesForMovies
  dsimp only
  split
  · rename_i stats messages st2 heq
    intro _ hcond
    obtain ⟨hr1, -, -⟩ := refreshAndFinish_out s env stats messages st2
    rw [hr1] at hcond
    rw [refreshAndFinish_trace, if_pos hcond]
    simp
  · rename_i res st2 heq
    intro hnone hcond
    obtain ⟨-, h2⟩ := processMovieItems_out s env ctx ids _ _ _ _ res st2 heq
    rw [hnone] at h2
    cases h2

theorem cleanupForMovies_refresh_iff (s : Service) (env : Env) (ctx : Ctx)
    (ids : List Int) (st : St) (hst : Call.triggerRefresh ∉ st.trace)
    (hnone : (CleanupMissingFilesForMovies s env ctx ids st).1.2 = none) :
    Call.triggerRefresh ∈ ((CleanupMissingFilesForMovies s env ctx ids st).2).trace ↔
      (0 < (CleanupMissingFilesForMovies s env ctx ids st).1.1.stats.deletedRecords ∧
        s.dryRun = false) := by
  constructor
  · obtain ⟨l, h, href, -⟩ := cleanupForMovies_calls s env ctx ids st
    rw [h]
    intro hmem
    rcases List.mem_append.mp hmem with hmem | hmem
    · exact absurd hmem hst
    · exact href _ hmem rfl
  · exact cleanupForMovies_refresh_mem s env ctx ids st hnone

theorem cleanupForMovies_refresh_not_mem (s : Service) (env : Env) (ctx : Ctx)
    (ids : List Int) (st : St) (hst : Call.triggerRefresh ∉ st.trace)
    (hcancel : (CleanupMissingFilesForMovies s env ctx ids st).1.2 =
      some RunErr.cancelled) :
    Call.triggerRefresh ∉ ((CleanupMissingFilesForMovies s env ctx ids st).2).trace := by
  obtain ⟨l0, h0, p0⟩ := symlinkPhaseMovies_calls s env st
  obtain ⟨l1, h1, p1⟩ := processMovieItems_calls s env ctx ids 0
    ((symlinkPhaseMovies s env st).1.1) ((symlinkPhaseMovies s env st).1.2)
    ((symlinkPhaseMovies s env st).2)
  unfold CleanupMissingFilesForMovies at hcancel ⊢
  dsimp only at hcancel ⊢
  split at hcancel
  · rename_i stats messages st2 heq
    obtain ⟨-, -, h3⟩ := refreshAndFinish_out s env stats messages st2
    rw [h3] at hcancel
    cases hcancel
  · rename_i res st2 heq
    have hx := congrArg (fun p => p.2.trace) heq
    dsimp only at hx
    rw [h1, h0, List.append_assoc] at hx
    show Call.triggerRefresh ∉ st2.trace
    rw [← hx]
    intro hmem
    rcases List.mem_append.mp hmem with hmem | hmem
    · exact hst hmem
    rcases List.mem_append.mp hmem with hmem | hmem
    · exact absurd rfl (p0.1 _ hmem)
    · exact absurd rfl (p1.1 _ hmem)

theorem cleanupForSeries_refresh_mem (s : Service) (env : Env) (ctx : Ctx)
    (ids : List Int) (st : St) :
    (CleanupMissingFilesForSeries s env ctx ids st).1.2 = none →
    (0 < (CleanupMissingFilesForSeries s env ctx ids st).1.1.stats.deletedRecords ∧
      s.dryRun = false) →
    Call.triggerRefresh ∈ ((CleanupMissingFilesForSeries s env ctx ids st).2).trace := by
  unfold CleanupMissingFilesForSeries
  dsimp only
  split
  · rename_i stats messages st2 heq
    intro _ hcond
    obtain ⟨hr1, -, -⟩ := refreshAndFinish_out s env stats messages st2
    rw [hr1] at hcond
    rw [refreshAndFinish_trace, if_pos hcond]
    simp
  · rename_i res st2 heq
    intro hnone hcond
    obtain ⟨-, h2⟩ := processSeriesItems_out s env ctx ids _ _ _ _ res st2 heq
    rw [hnone] at h2
    cases h2

theorem cleanupForSeries_refresh_iff (s : Service) (env : Env) (ctx : Ctx)
    (ids : List Int) (st : St) (hst : Call.triggerRefresh ∉ st.trace)
    (hnone : (CleanupMissingFilesForSeries s env ctx ids st).1.2 = none) :
    Call.triggerRefresh ∈ ((CleanupMissingFilesForSeries s env ctx ids st).2).trace ↔
      (0 < (CleanupMissingFilesForSeries s env ctx ids st).1.1.stats.deletedRecords ∧
        s.dryRun = false) := by
  constructor
  · obtain ⟨l, h, href, -⟩ := cleanupForSeries_calls s env ctx ids st
    rw [h]
    intro hmem
    rcases List.mem_append.mp hmem with hmem | hmem
    · exact absurd hmem hst
    · exact href _ hmem rfl
  · exact cleanupForSeries_refresh_mem s env ctx ids st hnone

theorem cleanupForSeries_refresh_not_mem (s : Service) (env : Env) (ctx : Ctx)
    (ids : List Int) (st : St) (hst : Call.triggerRefresh ∉ st.trace)
    (hcancel : (CleanupMissingFilesForSeries s env ctx ids st).1.2 =
      some RunErr.cancelled) :
    Call.triggerRefresh ∉ ((CleanupMissingFilesForSeries s env ctx ids st).2).trace := by
  obtain ⟨l0, h0, p0⟩ := symlinkPhaseSeries_calls s env st
  obtain ⟨l1, h1, p1⟩ := processSeriesItems_calls s env ctx ids 0
    ((symlinkPhaseSeries s env st).1.1) ((symlinkPhaseSeries s env st).1.2)
    ((symlinkPhaseSeries s env st).2)
  unfold CleanupMissingFilesForSeries at hcancel ⊢
  dsimp only at hcancel ⊢
  split at hcancel
  · rename_i stats messages st2 heq
    obtain ⟨-, -, h3⟩ := refreshAndFinish_out s env stats messages st2
    rw [h3] at hcancel
    cases hcancel
  · rename_i res st2 heq
    have hx := congrArg (fun p => p.2.trace) heq
    dsimp only at hx
    rw [h1, h0, List.append_assoc] at hx
    show Call.triggerRefresh ∉ st2.trace
    rw [← hx]
    intro hmem
    rcases List.mem_append.mp hmem with hmem | hmem
    · exact hst hmem
    rcases List.mem_append.mp hmem with hmem | hmem
    · exact absurd rfl (p0.1 _ hmem)
    · exact absurd rfl (p1.1 _ hmem)

/-- C1 counterexample: a run of CleanupMissingFilesForMovies cancelled
before its only item returns the partial result with Success false
although Stats.Errors is zero, so Success does not hold iff
Stats.Errors equals zero on the cancelled partial result. -/
theorem c1_cancelled_counterexample :
    (CleanupMissingFilesForMovies svc0 env0 ⟨some 0⟩ [1] initSt).1.1.success = false ∧
    (CleanupMissingFilesForMovies svc0 env0 ⟨some 0⟩ [1] initSt).1.1.stats.errors = 0 := by
  exact ⟨rfl, rfl⟩

/-- C1 amended: for CleanupMissingFilesForSeries,
CleanupMissingFilesForMovies and CleanupMissingFiles, the Success
field is true iff Stats.Errors is zero and the run was not cancelled;
the partial result returned on cancellation always carries Success
false, even with zero errors. -/
theorem c1_success_iff_amended (s : Service) (env : Env) (ctx : Ctx)
    (ids : List Int) (st : St) :
    ((CleanupMissingFilesForMovies s env ctx ids st).1.1.success = true ↔
      ((CleanupMissingFilesForMovies s env ctx ids st).1.1.stats.errors = 0 ∧
       (CleanupMissingFilesForMovies s env ctx ids st).1.2 = none)) ∧
    ((CleanupMissingFilesForSeries s env ctx ids st).1.1.success = true ↔
      ((CleanupMissingFilesForSeries s env ctx ids st).1.1.stats.errors = 0 ∧
       (CleanupMissingFilesForSeries s env ctx ids st).1.2 = none)) ∧
    (∀ r, CleanupMissingFiles s env ctx st = Except.ok r →
      (r.1.1.success = true ↔ (r.1.1.stats.errors = 0 ∧ r.1.2 = none))) :=
  ⟨cleanupForMovies_success_iff s env ctx ids st,
   cleanupForSeries_success_iff s env ctx ids st,
   cleanupMissingFiles_success_iff s env ctx st⟩

/-- C1 witness: the amended equivalence evaluated on a concrete
completed run that deletes one stale movie record. -/
theorem c1_success_iff_witness :
    (CleanupMissingFilesForMovies svc0 envDel ⟨none⟩ [1] initSt).1.1.success = true ↔
      ((CleanupMissingFilesForMovies svc0 envDel ⟨none⟩ [1] initSt).1.1.stats.errors = 0 ∧
       (CleanupMissingFilesForMovies svc0 envDel ⟨none⟩ [1] initSt).1.2 = none) :=
  (c1_success_iff_amended svc0 envDel ⟨none⟩ [1] initSt).1

/-- C2: when the service is constructed with the dry-run flag set, no
execution path of CleanupMissingFilesForMovies,
CleanupMissingFilesForSeries or CleanupMissingFiles records any
mutating backend or filesystem call: DeleteEpisodeFile,
DeleteMovieFile, DeleteSymlink, AddMovie, AddSeries and TriggerRefresh
never appear in the run trace. -/
theorem c2_dryRun_no_mutating_calls (s : Service) (env : Env) (ctx : Ctx)
    (ids : List Int) (st : St) (hd : s.dryRun = true) (hm : MutFree st.trace) :
    MutFree (((CleanupMissingFilesForMovies s env ctx ids st).2).trace) ∧
    MutFree (((CleanupMissingFilesForSeries s env ctx ids st).2).trace) ∧
    (∀ r, CleanupMissingFiles s env ctx st = Except.ok r → MutFree (r.2.trace)) := by
  refine ⟨?_, ?_, ?_⟩
  · obtain ⟨l, h, -, pm⟩ := cleanupForMovies_calls s env ctx ids st
    rw [h]
    exact mutFree_append hm (pm hd)
  · obtain ⟨l, h, -, pm⟩ := cleanupForSeries_calls s env ctx ids st
    rw [h]
    exact mutFree_append hm (pm hd)
  · intro r h
    unfold CleanupMissingFiles at h
    split at h
    · cases h
    split at h
    · split at h
      · cases h
      split at h
      · simp only [Except.ok.injEq] at h
        subst h
        exact hm
      · simp only [Except.ok.injEq] at h
        subst h
        obtain ⟨l, h2, -, pm⟩ := cleanupForSeries_calls s env ctx _ _
        rw [h2, foldl_setSeriesInfo_trace]
        exact mutFree_append hm (pm hd)
    split at h
    · split at h
      · cases h
      split at h
      · simp only [Except.ok.injEq] at h
        subst h
        exact hm
      · simp only [Except.ok.injEq] at h
        subst h
        obtain ⟨l, h2, -, pm⟩ := cleanupForMovies_calls s env ctx _ _
        rw [h2, foldl_setMovieInfo_trace]
        exact mutFree_append hm (pm hd)
    · cases h

/-- C2 witness: a concrete dry-run over a backend holding one stale
movie record produces a trace free of mutating calls. -/
theorem c2_dryRun_witness :
    MutFree (((CleanupMissingFilesForMovies svcDry envDel ⟨none⟩ [1] initSt).2).trace) :=
  (c2_dryRun_no_mutating_calls svcDry envDel ⟨none⟩ [1] initSt rfl
    (fun c hc => absurd hc (by simp [initSt]))).1

/-- C8 counterexample: a run cancelled after deleting one record has
DeletedRecords positive and is not dry-run, yet TriggerRefresh is
never invoked, refuting the unconditional "exactly when". -/
theorem c8_cancel_skips_refresh_counterexample :
    0 < (CleanupMissingFilesForMovies svc0 envDel ⟨some 1⟩ [1, 2] initSt).1.1.stats.deletedRecords ∧
    svc0.dryRun = false ∧
    Call.triggerRefresh ∉
      ((CleanupMissingFilesForMovies svc0 envDel ⟨some 1⟩ [1, 2] initSt).2).trace := by
  refine ⟨by decide, rfl, by decide⟩

/-- C8 amended: a run that completes without cancellation invokes
TriggerRefresh exactly when Stats.DeletedRecords is positive and the
run is not dry-run; a cancelled run never invokes it; when the
TriggerRefresh call fails, its error message is appended to Messages
while Stats and the Success computation are unchanged by that
failure. -/
theorem c8_trigger_refresh_amended (s : Service) (env : Env) (ctx : Ctx)
    (ids : List Int) :
    ((CleanupMissingFilesForMovies s env ctx ids initSt).1.2 = none →
      (Call.triggerRefresh ∈ ((CleanupMissingFilesForMovies s env ctx ids initSt).2).trace ↔
        (0 < (CleanupMissingFilesForMovies s env ctx ids initSt).1.1.stats.deletedRecords ∧
         s.dryRun = false))) ∧
    ((CleanupMissingFilesForMovies s env ctx ids initSt).1.2 = some RunErr.cancelled →
      Call.triggerRefresh ∉
        ((CleanupMissingFilesForMovies s env ctx ids initSt).2).trace) ∧
    ((CleanupMissingFilesForSeries s env ctx ids initSt).1.2 = none →
      (Call.triggerRefresh ∈ ((CleanupMissingFilesForSeries s env ctx ids initSt).2).trace ↔
        (0 < (CleanupMissingFilesForSeries s env ctx ids initSt).1.1.stats.deletedRecords ∧
         s.dryRun = false))) ∧
    ((CleanupMissingFilesForSeries s env ctx ids initSt).1.2 = some RunErr.cancelled →
      Call.triggerRefresh ∉
        ((CleanupMissingFilesForSeries s env ctx ids initSt).2).trace) ∧
    (∀ (stats : CleanupStats) (messages : List String) (st : St) (m : String),
      env.triggerRefresh = Except.error m → 0 < stats.deletedRecords →
      s.dryRun = false →
      (refreshAndFinish s env stats messages st).1.1.messages =
        messages ++ ["Failed to trigger refresh: " ++ m] ∧
      (refreshAndFinish s env stats messages st).1.1.stats = stats ∧
      (refreshAndFinish s env stats messages st).1.1.success = (stats.errors == 0)) := by
  have hinit : Call.triggerRefresh ∉ initSt.trace := by simp [initSt]
  exact ⟨fun hnone => cleanupForMovies_refresh_iff s env ctx ids initSt hinit hnone,
    cleanupForMovies_refresh_not_mem s env ctx ids initSt hinit,
    fun hnone => cleanupForSeries_refresh_iff s env ctx ids initSt hinit hnone,
    cleanupForSeries_refresh_not_mem s env ctx ids initSt hinit,
    fun stats messages st m herr hdel hdry =>
      refreshAndFinish_fail s env stats messages st m herr hdel hdry⟩

/-- C8 witness: the amended refresh condition evaluated on a concrete
completed run deleting one record. -/
theorem c8_trigger_refresh_witness :
    Call.triggerRefresh ∈
      ((CleanupMissingFilesForMovies svc0 envDel ⟨none⟩ [1] initSt).2).trace ↔
      (0 < (CleanupMissingFilesForMovies svc0 envDel ⟨none⟩ [1] initSt).1.1.stats.deletedRecords ∧
       svc0.dryRun = false) :=
  (c8_trigger_refresh_amended svc0 envDel ⟨none⟩ [1]).1 rfl

theorem poolReachable_holding_le (cap n : Nat) :
    ∀ st : PoolState, poolReachable cap n st → st.holding ≤ cap := by
  intro st h
  induction h with
  | init => exact Nat.zero_le cap
  | step hr hstep ih =>
    cases hstep with
    | acquire w a d hlt => exact hlt
    | release w a d => exact Nat.le_of_succ_le ih

/-- C9: in the semaphore protocol of the worker pools, no reachable
state has more than cap workers holding a slot: the outer pool is
capped by the configured concurrency limit, the per-series episode
pool by episodeConcurrency, which equals min(concurrentLimit, 3); item
reconcilers and episode workers execute only while holding a slot. -/
theorem c9_bounded_concurrency (s : Service) (n : Nat) (st : PoolState) :
    (poolReachable s.concurrentLimit.toNat n st →
      st.holding ≤ s.concurrentLimit.toNat) ∧
    (poolReachable (episodeConcurrency s).toNat n st →
      st.holding ≤ (episodeConcurrency s).toNat) ∧
    episodeConcurrency s = min s.concurrentLimit 3 :=
  ⟨poolReachable_holding_le s.concurrentLimit.toNat n st,
   poolReachable_holding_le (episodeConcurrency s).toNat n st,
   rfl⟩

/-- C9 witness: with the default limit of five and two workers, the
state with one worker holding a slot is reachable and within bound. -/
theorem c9_bounded_concurrency_witness :
    PoolState.holding ⟨1, 1, 0⟩ ≤ (svc0.concurrentLimit).toNat :=
  (c9_bounded_concurrency svc0 2 ⟨1, 1, 0⟩).1
    (poolReachable.step poolReachable.init (poolStep.acquire 1 0 0 (by decide)))

/-- C5: a fetch of the episode or movie file record failing with a
message containing "not found" (case-insensitive) still counts the
item as checked, leaves the error counter untouched, records no
missing-file entry and issues no delete call: the run state is
returned unchanged. -/
theorem c5_not_found_informational (s : Service) (env : Env) (st : St) :
    (∀ (ep : Episode) (fid : Int) (e : String),
      ep.episodeFileId = some fid →
      env.getEpisodeFile fid = Except.error e →
      containsNotFound e = true →
      episodeWorker s env false ep st = ((⟨1, 0, 0, 0⟩, none), st)) ∧
    (∀ (movieID : Int) (m : Movie) (mfid : Int) (e : String),
      env.getMovie movieID = Except.ok m →
      m.hasFile = true → m.movieFileId = some mfid →
      env.getMovieFile mfid = Except.error e →
      containsNotFound e = true →
      cleanupMovie s env movieID st = ((⟨1, 0, 0, 0⟩, none), st)) := by
  constructor
  · intro ep fid e hfid hget hnf
    simp [episodeWorker, hfid, hget, hnf]
  · intro movieID m mfid e hget hhas hmf hgf hnf
    simp [cleanupMovie, hget, hhas, hmf, hgf, hnf]

/-- C5 witness: the not-found classification evaluated on concrete
fixtures for both the episode and the movie path. -/
theorem c5_not_found_witness :
    episodeWorker svc0 envNotFound false ep1 initSt = ((⟨1, 0, 0, 0⟩, none), initSt) ∧
    cleanupMovie svc0 envNotFound 1 initSt = ((⟨1, 0, 0, 0⟩, none), initSt) :=
  ⟨(c5_not_found_informational svc0 envNotFound initSt).1 ep1 11
      "Episode file Not Found" rfl rfl (by decide),
   (c5_not_found_informational svc0 envNotFound initSt).2 1 movie1 10
      "404 NOT FOUND" rfl rfl rfl rfl (by decide)⟩

/-- C6, Scenario A: a series with exactly three episodes, two claiming
a file (one absent on disk, one present) and one claiming none, under
a non-dry-run in which every backend call succeeds, yields checked 2,
missing 1, deleted 1, errors 0. -/
theorem c6_scenarioA (s : Service) (env : Env) (seriesID fid1 fid2 : Int)
    (e1 e2 e3 : Episode) (f1 f2 : EpisodeFile) (st : St)
    (hdry : s.dryRun = false)
    (heps : env.getEpisodesForSeries seriesID = Except.ok [e1, e2, e3])
    (h1f : e1.hasFile = true) (h1id : e1.episodeFileId = some fid1)
    (h2f : e2.hasFile = true) (h2id : e2.episodeFileId = some fid2)
    (h3f : e3.hasFile = false)
    (hgf1 : env.getEpisodeFile fid1 = Except.ok f1) (hp1 : ¬ f1.path = "")
    (hex1 : env.fileExists f1.path = false)
    (hdel1 : env.deleteEpisodeFile fid1 = Except.ok ())
    (hgf2 : env.getEpisodeFile fid2 = Except.ok f2) (hp2 : ¬ f2.path = "")
    (hex2 : env.fileExists f2.path = true) :
    (cleanupSeries s env false seriesID st).1 = (⟨2, 1, 1, 0⟩, none) := by
  simp [cleanupSeries, heps, h1f, h1id, h2f, h2id, h3f, processEpisodes,
    episodeWorker, hgf1, hp1, hex1, hdry, hdel1, hgf2, hp2, hex2,
    addMissingFileEntry, nowTick, recordCall]

/-- C6 witness: Scenario A evaluated on the concrete three-episode
fixture series. -/
theorem c6_scenarioA_witness :
    (cleanupSeries svc0 envScenA false 9 initSt).1 = (⟨2, 1, 1, 0⟩, none) :=
  c6_scenarioA svc0 envScenA 9 11 12 ep1 ep2 ep3
    ⟨11, "/tv/a.mkv"⟩ ⟨12, "/tv/b.mkv"⟩ initSt
    rfl rfl rfl rfl rfl rfl rfl rfl (by decide) (by decide) rfl rfl
    (by decide) (by decide)

/-- C7, Scenario D: for a broken symlink whose path parses to TMDB ID
555, when the collection query finds no existing movie, then with the
add-missing-media flag enabled and not dry-run the recoverer invokes
the catalog lookup for 555 and the add-to-collection call and records
an entry with AddedToCollection true, TMDBID 555 and FileID 0; with
the flag disabled or under dry-run no add-to-collection call is made
and the recorded entry has AddedToCollection false. -/
theorem c7_broken_symlink_recovery (s : Service) (env : Env)
    (symlinkPath : String) (rootFolders : List RootFolder) (rf : RootFolder)
    (L : MovieLookup) (st : St) (eGet : String)
    (hparse : ParseTMDBIDFromPath symlinkPath = Except.ok 555)
    (hget : env.getMovieByTMDBID 555 = Except.error eGet)
    (hdel : env.deleteSymlink symlinkPath = Except.ok ())
    (hlook : env.lookupMovieByTMDBID 555 = Except.ok L)
    (hpick : pickRootFolder symlinkPath rootFolders = some rf)
    (hadd : ∀ m : Movie, env.addMovie m = Except.ok m) :
    (s.addMissingMovies = true → s.dryRun = false →
      Call.lookupMovieByTMDBID 555 ∈
        ((handleBrokenSymlink s env symlinkPath rootFolders st).2).trace ∧
      (∃ n, Call.addMovie n ∈
        ((handleBrokenSymlink s env symlinkPath rootFolders st).2).trace) ∧
      (∃ entry,
        ((handleBrokenSymlink s env symlinkPath rootFolders st).2).missingFiles =
          st.missingFiles ++ [entry] ∧
        entry.addedToCollection = true ∧ entry.tmdbId = 555 ∧ entry.fileID = 0)) ∧
    ((s.addMissingMovies = false ∨ s.dryRun = true) →
      (∀ n, Call.addMovie n ∈
          ((handleBrokenSymlink s env symlinkPath rootFolders st).2).trace →
        Call.addMovie n ∈ st.trace) ∧
      (∃ entry,
        ((handleBrokenSymlink s env symlinkPath rootFolders st).2).missingFiles =
          st.missingFiles ++ [entry] ∧ entry.addedToCollection = false)) := by
  constructor
  · intro hflag hdry
    refine ⟨?_, ⟨L.tmdbId, ?_⟩,
      ⟨{ mediaType := "movie", mediaName := L.title, filePath := symlinkPath,
         fileID := 0, processedAt := env.clock st.tick,
         addedToCollection := true, tmdbId := 555 }, ?_, rfl, rfl, rfl⟩⟩ <;>
      simp [handleBrokenSymlink, handleBrokenSymlinkResolved, hparse, hdry, hdel,
        hget, hlook, hpick, hflag, hadd, recordCall, addMissingFileEntry, nowTick,
        setMovieInfo]
  · intro hcase
    by_cases hdry2 : s.dryRun = true
    · refine ⟨?_,
        ⟨{ mediaType := "movie", mediaName := L.title,
           filePath := symlinkPath, fileID := 0,
           processedAt := env.clock st.tick, addedToCollection := false,
           tmdbId := 555 }, ?_, rfl⟩⟩ <;>
        simp [handleBrokenSymlink, handleBrokenSymlinkResolved, hparse, hdry2,
          hget, hlook, hpick, recordCall, addMissingFileEntry, nowTick]
    · have hdry3 : s.dryRun = false := by simpa using hdry2
      have hflag2 : s.addMissingMovies = false := by
        rcases hcase with h | h
        · exact h
        · rw [h] at hdry3; cases hdry3
      refine ⟨?_,
        ⟨{ mediaType := "movie", mediaName := L.title,
           filePath := symlinkPath, fileID := 0,
           processedAt := env.clock st.tick, addedToCollection := false,
           tmdbId := 555 }, ?_, rfl⟩⟩ <;>
        simp [handleBrokenSymlink, handleBrokenSymlinkResolved, hparse, hdry3,
          hdel, hget, hlook, hpick, hflag2, recordCall, addMissingFileEntry,
          nowTick]

/-- C7 witness: Scenario D evaluated on the concrete fixture path with
the tag of TMDB ID 555, flag enabled, not dry-run. -/
theorem c7_broken_symlink_witness :
    Call.lookupMovieByTMDBID 555 ∈
      ((handleBrokenSymlink svcAdd envScenD symlinkPath555 [rootFolderMovies] initSt).2).trace ∧
    (∃ n, Call.addMovie n ∈
      ((handleBrokenSymlink svcAdd envScenD symlinkPath555 [rootFolderMovies] initSt).2).trace) ∧
    (∃ entry,
      ((handleBrokenSymlink svcAdd envScenD symlinkPath555 [rootFolderMovies] initSt).2).missingFiles =
        initSt.missingFiles ++ [entry] ∧
      entry.addedToCollection = true ∧ entry.tmdbId = 555 ∧ entry.fileID = 0) :=
  (c7_broken_symlink_recovery svcAdd envScenD symlinkPath555 [rootFolderMovies]
    rootFolderMovies ⟨555, "Movie", 2020⟩ initSt "movie not in collection"
    rfl rfl rfl rfl (by decide) (fun m => rfl)).1 rfl rfl
